import Mathlib

/-!
# termuxwc: a verification development of `src/main.c`

`main` is a straight-line start-up routine: it prepares the environment, brings up a
headless wlroots compositor, brings up a libvncserver screen with a zero-filled
framebuffer, launches a terminal client and enters the Wayland event loop, with a
`goto`-based cleanup chain.

The embedding is a state-passing translation of `main`.  Every statement of `main`
(library call, assignment or store) appends one entry to a trace, paired with the state
of the variables of `main` right after that statement.  What the libraries answer
(NULL or a pointer, a pid, a socket name, ...) is not decided by `main`; it is gathered
in a `World` record over which every theorem quantifies.  A `World` with `fork = 0`
describes the run of the forked child.

Conventions of the model:

* a library call is modelled by its return value; the record `*vnc_screen` and the
  frame buffer change only through the statements of `main` (`rfbInitServer` and
  `rfbScreenCleanup` are calls on the screen, not stores into the fields `main` sets);
* the thread started by `pthread_create` runs concurrently and is not part of the
  trace;
* `setenv` with a non-null value succeeds; `mkdir` is a recorded call whose result
  `main` ignores;
* `int` is 32 bits wide, `size_t` 64 bits.
-/

namespace Termuxwc

/-! ## Data model -/

/-- C pointers: `none` is `NULL`, `some a` is the address `a`. -/
abbrev Ptr := Option Nat

/-- The null pointer. -/
abbrev NULL : Ptr := none

/-- Modelled from the spec: the macro `TRUE` of `rfb/rfb.h` (not under `src/`); `rfbBool`
fields are read as booleans ("supports shared (multi-viewer) sessions"). -/
def TRUE : Bool := true

/-- The exit status `EXIT_SUCCESS` of `<stdlib.h>` (0 on Linux and Android). -/
def EXIT_SUCCESS : Int := 0

/-- The exit status `EXIT_FAILURE` of `<stdlib.h>` (1 on Linux and Android). -/
def EXIT_FAILURE : Int := 1

/-- Log levels of `wlr/util/log.h` used by `main`. -/
inductive wlr_log_importance where
  | WLR_ERROR
  | WLR_INFO
  deriving DecidableEq, Repr

open wlr_log_importance

/-- The fields of `rfbPixelFormat` (member `serverFormat` of the screen). -/
structure rfbPixelFormat where
  bitsPerPixel : Nat
  depth : Nat
  redMax : Nat
  greenMax : Nat
  blueMax : Nat
  redShift : Nat
  greenShift : Nat
  blueShift : Nat
  deriving DecidableEq, Repr

/-- The fields of `rfbScreenInfo` that `main` reads or writes, plus the geometry. -/
structure rfbScreenInfo where
  width : Int
  height : Int
  serverFormat : rfbPixelFormat
  bitsPerPixel : Int
  depth : Int
  alwaysShared : Bool
  port : Int
  frameBuffer : Ptr
  deriving DecidableEq, Repr

/-- The record `struct termuxwc_server` (lines 23-31). -/
structure termuxwc_server where
  display : Ptr
  backend : Ptr
  renderer : Ptr
  compositor : Ptr
  xdg_shell : Ptr
  output_layout : Ptr
  output : Ptr
  deriving DecidableEq, Repr

/-- One heap block: its address and its bytes. -/
structure Block where
  addr : Nat
  bytes : List Nat
  deriving DecidableEq, Repr

/-- The variables of `main` and the memory they point to. -/
structure State where
  /-- the process environment, as name/value pairs -/
  environ : List (String × String)
  /-- local `xdg_runtime_dir` (`none` is `NULL`) -/
  xdg_runtime_dir : Option String
  /-- local `server` -/
  server : termuxwc_server
  /-- local `vnc_screen` -/
  vnc_screen : Ptr
  /-- the record `*vnc_screen`, while it is allocated -/
  screen : Option rfbScreenInfo
  /-- the block returned by `calloc`, while it is allocated -/
  block : Option Block
  /-- local `fbsize` -/
  fbsize : Nat
  /-- local `socket` (`none` is `NULL`) -/
  socket : Option String
  /-- the name stored by `server.output->name = ...` -/
  output_name : Option String
  /-- local `shm` -/
  shm : Ptr
  /-- local `pid` -/
  pid : Int
  deriving DecidableEq, Repr

/-- Every statement of `main`: the library calls with their arguments, the assignments
to locals (`assign`) and the stores through `vnc_screen` (`store`, `store_flag`). -/
inductive Event where
  | wlr_log_init (verbosity : wlr_log_importance)
  | getenv (name : String)
  | setenv (name : String) (value : Option String) (overwrite : Int)
  | mkdir (path : Option String) (mode : Nat)
  | wl_display_create
  | fprintf_stderr (format : String) (args : List Int)
  | wl_display_get_event_loop (display : Ptr)
  | wlr_headless_backend_create (loop : Ptr)
  | wlr_log (verbosity : wlr_log_importance) (format : String) (args : List (Option String))
  | wlr_renderer_autocreate (backend : Ptr)
  | wlr_compositor_create (display : Ptr) (version : Nat) (renderer : Ptr)
  | wlr_subcompositor_create (display : Ptr)
  | wlr_data_device_manager_create (display : Ptr)
  | wlr_xdg_shell_create (display : Ptr) (version : Nat)
  | wl_signal_add (shell : Ptr)
  | wlr_output_layout_create (display : Ptr)
  | rfbGetScreen (argv : List String)
      (width height bitsPerSample samplesPerPixel bytesPerPixel : Int)
  | calloc (nmemb size : Nat)
  | assign (lvalue : String)
  | store (lvalue : String) (value : Int)
  | store_flag (lvalue : String) (value : Bool)
  | rfbInitServer (screen : Ptr)
  | pthread_create (arg : Ptr)
  | pthread_detach
  | wl_display_add_socket_auto (display : Ptr)
  | wlr_backend_start (backend : Ptr)
  | wlr_headless_add_output (backend : Ptr) (width height : Nat)
  | store_output_name (output : Ptr) (name : String)
  | wlr_output_layout_add_auto (layout output : Ptr)
  | wlr_shm_create (display : Ptr) (version : Nat)
  | fork
  | execl (path : String) (args : List String)
  | perror (msg : String)
  | _exit (status : Int)
  | wl_display_run (display : Ptr)
  | free (p : Ptr)
  | rfbScreenCleanup (screen : Ptr)
  | wl_display_destroy (display : Ptr)
  deriving DecidableEq, Repr

/-- How a run of `main` ends. -/
inductive Outcome where
  /-- `return status;` from `main` -/
  | returned (status : Int)
  /-- `_exit(status)` in the forked child -/
  | exited (status : Int)
  /-- `execl` replaced the process image, with this environment -/
  | execd (path : String) (args : List String) (environ : List (String × String))
  /-- `wl_display_run` never came back -/
  | running
  deriving DecidableEq, Repr

/-- What the world outside `main` answers during one run. -/
structure World where
  /-- the environment on entry -/
  environ : List (String × String)
  /-- the command line -/
  argv : List String
  wl_display_create : Ptr
  wl_display_get_event_loop : Ptr
  wlr_headless_backend_create : Ptr
  wlr_renderer_autocreate : Ptr
  wlr_compositor_create : Ptr
  wlr_xdg_shell_create : Ptr
  wlr_output_layout_create : Ptr
  /-- the screen `rfbGetScreen` builds from the command line and the geometry, with
  its address, or `none` for `NULL` -/
  rfbGetScreen : List String → Int → Int → Int → Int → Int → Option (Nat × rfbScreenInfo)
  /-- the address `calloc` returns, or `NULL` -/
  calloc : Ptr
  /-- the return value of `pthread_create` -/
  pthread_create : Int
  /-- the socket name, or `NULL` -/
  wl_display_add_socket_auto : Option String
  wlr_backend_start : Bool
  wlr_headless_add_output : Ptr
  wlr_shm_create : Ptr
  /-- the return value of `fork` in this process -/
  fork : Int
  /-- whether `execl` succeeds (then it does not return) -/
  execl_succeeds : Bool
  /-- whether `wl_display_run` ever returns -/
  wl_display_run_returns : Bool

/-- The result of a run: the trace of statements, each with the state right after it,
the last state and the way the run ended. -/
structure Run where
  trace : List (Event × State)
  final : State
  outcome : Outcome
  deriving Repr

/-- The machine while `main` runs. -/
structure Machine where
  st : State
  trace : List (Event × State)

/-- Execute one statement: update the state and record the statement. -/
def Machine.exec (m : Machine) (ev : Event) (f : State → State) : Machine :=
  { st := f m.st, trace := m.trace ++ [(ev, f m.st)] }

/-- Execute a statement that leaves the variables of `main` alone. -/
def Machine.call (m : Machine) (ev : Event) : Machine :=
  m.exec ev id

/-- End the run. -/
def Machine.finish (m : Machine) (o : Outcome) : Run :=
  { trace := m.trace, final := m.st, outcome := o }

/-! ## The C library as far as `main` relies on it -/

/-- The value of `name` in the environment (`getenv`). -/
def getenv (environ : List (String × String)) (name : String) : Option String :=
  environ.lookup name

/-- The environment after `setenv(name, value, overwrite)`; a `NULL` value is an
error that leaves the environment alone. -/
def setenv (environ : List (String × String)) (name : String) (value : Option String)
    (overwrite : Int) : List (String × String) :=
  match value with
  | none => environ
  | some v =>
    if overwrite = 0 ∧ (getenv environ name).isSome then environ
    else (name, v) :: environ.filter (fun kv => kv.1 != name)

/-- The block `calloc(nmemb, size)` hands out at address `a`: `nmemb * size` zero bytes. -/
def callocBlock (a nmemb size : Nat) : Block :=
  { addr := a, bytes := List.replicate (nmemb * size) 0 }

/-- The heap after `free(p)`: the block at `p` is gone. -/
def freeBlock (p : Ptr) (b : Option Block) : Option Block :=
  match p, b with
  | some a, some blk => if blk.addr = a then none else some blk
  | _, b => b

/-- A value of C type `int` (32 bits, two's complement). -/
def wrapInt (x : Int) : Int :=
  (x + 2 ^ 31) % 2 ^ 32 - 2 ^ 31

/-- The smallest `int`. -/
def INT_MIN : Int := -(2 ^ 31)

/-- The largest `int`. -/
def INT_MAX : Int := 2 ^ 31 - 1

/-- Multiplication of two `int`s. -/
def mulInt (x y : Int) : Int :=
  wrapInt (x * y)

/-- Conversion of an `int` to `size_t` (64 bits). -/
def toSizeT (x : Int) : Nat :=
  (x % 2 ^ 64).toNat

/-! ## The program -/

/-- The pointer `vnc_screen->frameBuffer`. -/
def State.frameBuffer (s : State) : Ptr :=
  match s.screen with
  | some sc => sc.frameBuffer
  | none => NULL

/-- The value `vnc_screen->port`. -/
def State.port (s : State) : Int :=
  match s.screen with
  | some sc => sc.port
  | none => 0

/-- A store through `vnc_screen`. -/
def State.setScreen (f : rfbScreenInfo → rfbScreenInfo) (s : State) : State :=
  { s with screen := s.screen.map f }

/-- The state on entry of `main`; `server` is `{0}` (line 58). -/
def initial (w : World) : State :=
  { environ := w.environ
    xdg_runtime_dir := none
    server :=
      { display := NULL, backend := NULL, renderer := NULL, compositor := NULL,
        xdg_shell := NULL, output_layout := NULL, output := NULL }
    vnc_screen := NULL
    screen := none
    block := none
    fbsize := 0
    socket := none
    output_name := none
    shm := NULL
    pid := 0 }

/-- Label `fail_display` (lines 192-194). -/
def fail_display (m : Machine) : Run :=
  let m := m.call (.wl_display_destroy m.st.server.display)
  m.finish (.returned EXIT_SUCCESS)

/-- Label `fail_vnc` (lines 187-191), falling through to `fail_display`. -/
def fail_vnc (m : Machine) : Run :=
  if m.st.vnc_screen ≠ NULL then
    let m := m.exec (.free m.st.frameBuffer)
      (fun s => { s with block := freeBlock s.frameBuffer s.block })
    let m := m.exec (.rfbScreenCleanup m.st.vnc_screen) (fun s => { s with screen := none })
    fail_display m
  else
    fail_display m

/-- Lines 170-184: launch the terminal, then run the event loop. -/
def main_launch (w : World) (m : Machine) : Run :=
  let m := m.exec .fork (fun s => { s with pid := w.fork })
  if m.st.pid = 0 then
    let m := m.exec (.setenv "WAYLAND_DISPLAY" m.st.socket 1)
      (fun s => { s with environ := setenv s.environ "WAYLAND_DISPLAY" s.socket 1 })
    let m := m.exec (.setenv "XDG_RUNTIME_DIR" m.st.xdg_runtime_dir 1)
      (fun s => { s with environ := setenv s.environ "XDG_RUNTIME_DIR" s.xdg_runtime_dir 1 })
    let m := m.call (.execl "/data/data/com.termux/files/usr/bin/alacritty" ["alacritty"])
    if w.execl_succeeds then
      m.finish (.execd "/data/data/com.termux/files/usr/bin/alacritty" ["alacritty"]
        m.st.environ)
    else
      let m := m.call (.perror "Failed to launch alacritty")
      let m := m.call (._exit 1)
      m.finish (.exited 1)
  else
    let m := if m.st.pid < 0 then m.call (.wlr_log WLR_ERROR "fork failed" []) else m
    let m := m.call
      (.wlr_log WLR_INFO "TermuxWC running. Connect via VNC to port 5901." [])
    let m := m.call (.wl_display_run m.st.server.display)
    if w.wl_display_run_returns then fail_vnc m else m.finish .running

/-- Lines 140-168: socket, backend start, headless output, SHM. -/
def main_wayland (w : World) (m : Machine) : Run :=
  let m := m.exec (.wl_display_add_socket_auto m.st.server.display)
    (fun s => { s with socket := w.wl_display_add_socket_auto })
  if m.st.socket = none then
    let m := m.call (.wlr_log WLR_ERROR "Failed to add socket" [])
    fail_vnc m
  else
    let m := m.exec (.setenv "WAYLAND_DISPLAY" m.st.socket 1)
      (fun s => { s with environ := setenv s.environ "WAYLAND_DISPLAY" s.socket 1 })
    let m := m.call (.wlr_log WLR_INFO "WAYLAND_DISPLAY=%s" [m.st.socket])
    let m := m.call (.wlr_backend_start m.st.server.backend)
    if !w.wlr_backend_start then
      let m := m.call (.wlr_log WLR_ERROR "Failed to start backend" [])
      fail_vnc m
    else
      let m := m.exec (.wlr_headless_add_output m.st.server.backend 800 600)
        (fun s => { s with server.output := w.wlr_headless_add_output })
      if m.st.server.output = NULL then
        let m := m.call (.wlr_log WLR_ERROR "Failed to create headless output" [])
        fail_vnc m
      else
        let m := m.exec (.store_output_name m.st.server.output "VNC")
          (fun s => { s with output_name := some "VNC" })
        let m := m.call
          (.wlr_output_layout_add_auto m.st.server.output_layout m.st.server.output)
        let m := m.exec (.wlr_shm_create m.st.server.display 1)
          (fun s => { s with shm := w.wlr_shm_create })
        let m :=
          if m.st.shm = NULL then
            m.call (.wlr_log WLR_ERROR "SHM not available — clients may fail" [])
          else m
        main_launch w m

/-- Lines 102-138: the VNC screen, its frame buffer, its format, its thread. -/
def main_vnc (w : World) (m : Machine) : Run :=
  let m := m.exec (.rfbGetScreen w.argv 800 600 8 3 4)
    (fun s =>
      { s with
        vnc_screen := (w.rfbGetScreen w.argv 800 600 8 3 4).map Prod.fst
        screen := (w.rfbGetScreen w.argv 800 600 8 3 4).map Prod.snd })
  if m.st.vnc_screen = NULL then
    let m := m.call (.fprintf_stderr "rfbGetScreen failed\n" [])
    fail_display m
  else
    let m := m.exec (.assign "fbsize")
      (fun s => { s with fbsize := toSizeT (mulInt (mulInt 800 600) 4) })
    let m := m.exec (.calloc 1 m.st.fbsize)
      (fun s =>
        { s with
          block := w.calloc.map (fun a => callocBlock a 1 s.fbsize)
          screen := s.screen.map (fun sc => { sc with frameBuffer := w.calloc }) })
    if m.st.frameBuffer = NULL then
      let m := m.call (.fprintf_stderr "VNC framebuffer alloc failed\n" [])
      let m := m.exec (.rfbScreenCleanup m.st.vnc_screen) (fun s => { s with screen := none })
      fail_display m
    else
      let m := m.exec (.store "vnc_screen->serverFormat.redShift" 16)
        (State.setScreen fun sc => { sc with serverFormat.redShift := 16 })
      let m := m.exec (.store "vnc_screen->serverFormat.greenShift" 8)
        (State.setScreen fun sc => { sc with serverFormat.greenShift := 8 })
      let m := m.exec (.store "vnc_screen->serverFormat.blueShift" 0)
        (State.setScreen fun sc => { sc with serverFormat.blueShift := 0 })
      let m := m.exec (.store "vnc_screen->serverFormat.redMax" 255)
        (State.setScreen fun sc => { sc with serverFormat.redMax := 255 })
      let m := m.exec (.store "vnc_screen->serverFormat.greenMax" 255)
        (State.setScreen fun sc => { sc with serverFormat.greenMax := 255 })
      let m := m.exec (.store "vnc_screen->serverFormat.blueMax" 255)
        (State.setScreen fun sc => { sc with serverFormat.blueMax := 255 })
      let m := m.exec (.store "vnc_screen->bitsPerPixel" 32)
        (State.setScreen fun sc => { sc with bitsPerPixel := 32 })
      let m := m.exec (.store "vnc_screen->depth" 24)
        (State.setScreen fun sc => { sc with depth := 24 })
      let m := m.exec (.store_flag "vnc_screen->alwaysShared" TRUE)
        (State.setScreen fun sc => { sc with alwaysShared := TRUE })
      let m := m.exec (.store "vnc_screen->port" 5901)
        (State.setScreen fun sc => { sc with port := 5901 })
      let m := m.call (.rfbInitServer m.st.vnc_screen)
      let m := m.call (.fprintf_stderr "VNC server listening on port %d\n" [m.st.port])
      let m := m.call (.pthread_create m.st.vnc_screen)
      if w.pthread_create ≠ 0 then
        let m := m.call (.fprintf_stderr "Failed to start VNC thread\n" [])
        let m := m.exec (.free m.st.frameBuffer)
          (fun s => { s with block := freeBlock s.frameBuffer s.block })
        let m := m.exec (.rfbScreenCleanup m.st.vnc_screen)
          (fun s => { s with screen := none })
        fail_display m
      else
        let m := m.call .pthread_detach
        main_wayland w m

/-- Lines 65-100: backend, renderer, compositor, xdg-shell, output layout. -/
def main_compositor (w : World) (m : Machine) : Run :=
  let m := m.call (.wl_display_get_event_loop m.st.server.display)
  let m := m.exec (.wlr_headless_backend_create w.wl_display_get_event_loop)
    (fun s => { s with server.backend := w.wlr_headless_backend_create })
  if m.st.server.backend = NULL then
    let m := m.call (.wlr_log WLR_ERROR "Failed to create headless backend" [])
    fail_display m
  else
    let m := m.exec (.wlr_renderer_autocreate m.st.server.backend)
      (fun s => { s with server.renderer := w.wlr_renderer_autocreate })
    if m.st.server.renderer = NULL then
      let m := m.call (.wlr_log WLR_ERROR "Failed to create renderer" [])
      fail_display m
    else
      let m := m.exec (.wlr_compositor_create m.st.server.display 5 m.st.server.renderer)
        (fun s => { s with server.compositor := w.wlr_compositor_create })
      if m.st.server.compositor = NULL then
        let m := m.call (.wlr_log WLR_ERROR "Failed to create compositor" [])
        fail_display m
      else
        let m := m.call (.wlr_subcompositor_create m.st.server.display)
        let m := m.call (.wlr_data_device_manager_create m.st.server.display)
        let m := m.exec (.wlr_xdg_shell_create m.st.server.display 3)
          (fun s => { s with server.xdg_shell := w.wlr_xdg_shell_create })
        if m.st.server.xdg_shell = NULL then
          let m := m.call (.wlr_log WLR_ERROR "Failed to create xdg-shell" [])
          fail_display m
        else
          let m := m.call (.assign "new_xdg_surface.notify")
          let m := m.call (.wl_signal_add m.st.server.xdg_shell)
          let m := m.exec (.wlr_output_layout_create m.st.server.display)
            (fun s => { s with server.output_layout := w.wlr_output_layout_create })
          if m.st.server.output_layout = NULL then
            let m := m.call (.wlr_log WLR_ERROR "Failed to create output layout" [])
            fail_display m
          else
            main_vnc w m

/-- The function `main` (lines 48-195). -/
def main (w : World) : Run :=
  let m : Machine := { st := initial w, trace := [] }
  let m := m.call (.wlr_log_init WLR_INFO)
  let m := m.exec (.getenv "XDG_RUNTIME_DIR")
    (fun s => { s with xdg_runtime_dir := getenv s.environ "XDG_RUNTIME_DIR" })
  let m :=
    if m.st.xdg_runtime_dir = none then
      let m := m.exec (.assign "xdg_runtime_dir")
        (fun s =>
          { s with xdg_runtime_dir := some "/data/data/com.termux/files/usr/tmp/wayland" })
      let m := m.exec (.setenv "XDG_RUNTIME_DIR" m.st.xdg_runtime_dir 1)
        (fun s => { s with environ := setenv s.environ "XDG_RUNTIME_DIR" s.xdg_runtime_dir 1 })
      m.call (.mkdir m.st.xdg_runtime_dir 0o700)
    else m
  let m := m.exec .wl_display_create
    (fun s => { s with server.display := w.wl_display_create })
  if m.st.server.display = NULL then
    let m := m.call (.fprintf_stderr "Failed to create wl_display\n" [])
    m.finish (.returned EXIT_FAILURE)
  else
    main_compositor w m

/-! ## Which worlds lead where -/

/-- Some initialization step after `wl_display_create` fails: backend, renderer,
compositor, xdg-shell, output layout, `rfbGetScreen`, frame buffer allocation, VNC
thread creation, socket, backend start or headless output. -/
def InitFailure (w : World) : Prop :=
  w.wlr_headless_backend_create = NULL ∨ w.wlr_renderer_autocreate = NULL ∨
  w.wlr_compositor_create = NULL ∨ w.wlr_xdg_shell_create = NULL ∨
  w.wlr_output_layout_create = NULL ∨ w.rfbGetScreen w.argv 800 600 8 3 4 = none ∨
  w.calloc = NULL ∨ w.pthread_create ≠ 0 ∨ w.wl_display_add_socket_auto = none ∨
  w.wlr_backend_start = false ∨ w.wlr_headless_add_output = NULL

/-- Every step up to and including the frame buffer allocation succeeds, so that the
run reaches `rfbInitServer`. -/
def ReachesInit (w : World) : Prop :=
  w.wl_display_create ≠ NULL ∧ w.wlr_headless_backend_create ≠ NULL ∧
  w.wlr_renderer_autocreate ≠ NULL ∧ w.wlr_compositor_create ≠ NULL ∧
  w.wlr_xdg_shell_create ≠ NULL ∧ w.wlr_output_layout_create ≠ NULL ∧
  w.rfbGetScreen w.argv 800 600 8 3 4 ≠ none ∧ w.calloc ≠ NULL

/-- Every step before `wl_display_add_socket_auto` succeeds. -/
def ReachesSocket (w : World) : Prop :=
  ReachesInit w ∧ w.pthread_create = 0

/-- Every step before `wlr_shm_create` succeeds. -/
def ReachesShm (w : World) : Prop :=
  ReachesSocket w ∧ w.wl_display_add_socket_auto ≠ none ∧ w.wlr_backend_start = true ∧
  w.wlr_headless_add_output ≠ NULL

/-- A world in which everything succeeds, the process is the parent and the event
loop returns; the environment has no `XDG_RUNTIME_DIR`. -/
def worldOk : World :=
  { environ := [("HOME", "/data/data/com.termux/files/home")]
    argv := ["termuxwc", "-rfbport", "5999"]
    wl_display_create := some 1
    wl_display_get_event_loop := some 2
    wlr_headless_backend_create := some 3
    wlr_renderer_autocreate := some 4
    wlr_compositor_create := some 5
    wlr_xdg_shell_create := some 6
    wlr_output_layout_create := some 7
    rfbGetScreen := fun _ width height bitsPerSample samplesPerPixel bytesPerPixel =>
      some (8,
        { width := width
          height := height
          serverFormat :=
            { bitsPerPixel := (8 * bytesPerPixel).toNat
              depth := (bitsPerSample * samplesPerPixel).toNat
              redMax := 255, greenMax := 255, blueMax := 255
              redShift := 0, greenShift := 8, blueShift := 16 }
          bitsPerPixel := 8 * bytesPerPixel
          depth := bitsPerSample * samplesPerPixel
          alwaysShared := false
          port := 5999
          frameBuffer := NULL })
    calloc := some 9
    pthread_create := 0
    wl_display_add_socket_auto := some "wayland-0"
    wlr_backend_start := true
    wlr_headless_add_output := some 10
    wlr_shm_create := some 11
    fork := 4242
    execl_succeeds := true
    wl_display_run_returns := true }

/-- The forked child of `worldOk`, with `XDG_RUNTIME_DIR` set on entry. -/
def worldChild : World :=
  { worldOk with environ := [("XDG_RUNTIME_DIR", "/run/user/0")], fork := 0 }

/-- The forked child of `worldOk` (no `XDG_RUNTIME_DIR` on entry) whose `execl`
fails. -/
def worldChildNoExec : World :=
  { worldOk with fork := 0, execl_succeeds := false }

/-- As `worldOk`, with `XDG_RUNTIME_DIR` set on entry, but the headless output
cannot be created. -/
def worldNoOutput : World :=
  { worldOk with environ := [("XDG_RUNTIME_DIR", "/run/user/0")],
                 wlr_headless_add_output := NULL }

/-- As `worldOk`, but `wlr_shm_create` and `fork` both fail. -/
def worldNoShmNoFork : World :=
  { worldOk with wlr_shm_create := NULL, fork := -1 }

/-- As `worldOk`, but `wl_display_create` fails. -/
def worldNoDisplay : World :=
  { worldOk with wl_display_create := NULL }

/-- As `worldOk`, but `calloc` fails. -/
def worldNoMemory : World :=
  { worldOk with calloc := NULL }

/-! ## Pixel packing -/

/-- Modelled from the spec: the 32-bit pixel of an RGB triple under a pixel format,
`(r << redShift) | (g << greenShift) | (b << blueShift)`; `main.c` configures the
format but contains no code that packs pixels ("a per-pixel or per-scanline channel
reorder/scale, not a lossy transform"). -/
def packPixel (f : rfbPixelFormat) (r g b : Nat) : Nat :=
  (r <<< f.redShift) ||| (g <<< f.greenShift) ||| (b <<< f.blueShift)

/-- Modelled from the spec: the red channel of a pixel, recovered by shifting and
masking with the channel maximum. -/
def redOf (f : rfbPixelFormat) (px : Nat) : Nat :=
  (px >>> f.redShift) &&& f.redMax

/-- Modelled from the spec: the green channel of a pixel. -/
def greenOf (f : rfbPixelFormat) (px : Nat) : Nat :=
  (px >>> f.greenShift) &&& f.greenMax

/-- Modelled from the spec: the blue channel of a pixel. -/
def blueOf (f : rfbPixelFormat) (px : Nat) : Nat :=
  (px >>> f.blueShift) &&& f.blueMax

/-- The packing under format `f` is exact on 8-bit channels: the three channel fields
occupy pairwise disjoint bits, the pixel fits in the low 24 bits, and every channel is
recovered by shifting and masking. -/
def ExactPacking (f : rfbPixelFormat) : Prop :=
  ∀ r g b, r ≤ 255 → g ≤ 255 → b ≤ 255 →
    (r <<< f.redShift) &&& (g <<< f.greenShift) = 0 ∧
    (r <<< f.redShift) &&& (b <<< f.blueShift) = 0 ∧
    (g <<< f.greenShift) &&& (b <<< f.blueShift) = 0 ∧
    packPixel f r g b < 2 ^ 24 ∧
    redOf f (packPixel f r g b) = r ∧ greenOf f (packPixel f r g b) = g ∧
    blueOf f (packPixel f r g b) = b

/-- The packing under format `f` is injective on 8-bit channels. -/
def InjectivePacking (f : rfbPixelFormat) : Prop :=
  ∀ r g b r' g' b', r ≤ 255 → g ≤ 255 → b ≤ 255 → r' ≤ 255 → g' ≤ 255 → b' ≤ 255 →
    packPixel f r g b = packPixel f r' g' b' → r = r' ∧ g = g' ∧ b = b'

/-! ## Reading a trace -/

/-- A call of `wl_display_destroy`. -/
def Event.isDestroy : Event → Bool
  | .wl_display_destroy _ => true
  | _ => false

/-- A call of `rfbScreenCleanup`. -/
def Event.isCleanup : Event → Bool
  | .rfbScreenCleanup _ => true
  | _ => false

/-- A call of `free`. -/
def Event.isFree : Event → Bool
  | .free _ => true
  | _ => false

/-- A call of `rfbGetScreen`. -/
def Event.isGetScreen : Event → Bool
  | .rfbGetScreen _ _ _ _ _ _ => true
  | _ => false

/-- A call of `calloc`. -/
def Event.isCalloc : Event → Bool
  | .calloc _ _ => true
  | _ => false

/-- A call of `wl_display_run`. -/
def Event.isRun : Event → Bool
  | .wl_display_run _ => true
  | _ => false

/-- The bring-up steps whose order matters: adding the socket, exporting
`WAYLAND_DISPLAY`, starting the backend, adding the headless output, creating SHM,
forking, running the event loop. -/
def Event.isBringUp : Event → Bool
  | .wl_display_add_socket_auto _ => true
  | .setenv name _ _ => name == "WAYLAND_DISPLAY"
  | .wlr_backend_start _ => true
  | .wlr_headless_add_output _ _ _ => true
  | .wlr_shm_create _ _ => true
  | .fork => true
  | .wl_display_run _ => true
  | _ => false

/-- A call of the cleanup chain: `free`, `rfbScreenCleanup` or `wl_display_destroy`. -/
def Event.isRelease (e : Event) : Bool :=
  e.isFree || e.isCleanup || e.isDestroy

/-- The call of `rfbInitServer`. -/
def Event.isInit : Event → Bool
  | .rfbInitServer _ => true
  | _ => false

/-- A store through `vnc_screen`. -/
def Event.isStore : Event → Bool
  | .store _ _ => true
  | .store_flag _ _ => true
  | _ => false

/-- The configuration `main` gives the screen (lines 117-125). -/
def Configured (sc : rfbScreenInfo) : Prop :=
  sc.serverFormat.redShift = 16 ∧ sc.serverFormat.greenShift = 8 ∧
  sc.serverFormat.blueShift = 0 ∧ sc.serverFormat.redMax = 255 ∧
  sc.serverFormat.greenMax = 255 ∧ sc.serverFormat.blueMax = 255 ∧
  sc.bitsPerPixel = 32 ∧ sc.depth = 24 ∧ sc.alwaysShared = TRUE

/-- At this trace entry the screen in `vnc_screen` is allocated and configured, and it
is the argument of the call. -/
def ConfiguredAtInit (es : Event × State) : Prop :=
  es.1 = .rfbInitServer es.2.vnc_screen ∧ ∃ sc, es.2.screen = some sc ∧ Configured sc

/-- This trace entry is not a store through `vnc_screen`, and the screen, as long as
it is allocated, is still configured right after it. -/
def Frozen (es : Event × State) : Prop :=
  es.1.isStore = false ∧ ∀ sc, es.2.screen = some sc → Configured sc

/-- Every call of `rfbInitServer` in the trace gets the configured screen, and every
entry that comes later in the trace than such a call is `Frozen`. -/
def InitThenFrozen (t : List (Event × State)) : Prop :=
  (∀ es ∈ t, es.1.isInit = true → ConfiguredAtInit es) ∧
  t.Pairwise (fun a b => a.1.isInit = true → Frozen b)

/-- The statements of lines 140-195: everything `main` does once the VNC thread is
detached, the cleanup chain included. -/
def Event.isLate : Event → Bool
  | .wl_display_add_socket_auto _ => true
  | .setenv _ _ _ => true
  | .wlr_log _ _ _ => true
  | .wlr_backend_start _ => true
  | .wlr_headless_add_output _ _ _ => true
  | .store_output_name _ _ => true
  | .wlr_output_layout_add_auto _ _ => true
  | .wlr_shm_create _ _ => true
  | .fork => true
  | .execl _ _ => true
  | .perror _ => true
  | ._exit _ => true
  | .wl_display_run _ => true
  | .free _ => true
  | .rfbScreenCleanup _ => true
  | .wl_display_destroy _ => true
  | _ => false

/-- The calls of one kind in a trace, in order. -/
def callsOf (p : Event → Bool) (t : List (Event × State)) : List Event :=
  (t.map Prod.fst).filter p

/-- The last statement of a trace. -/
def lastCall (t : List (Event × State)) : Option Event :=
  (t.map Prod.fst).getLast?

/-- In this trace `rfbGetScreen` was called and returned a screen. -/
def gotScreenIn (t : List (Event × State)) : Bool :=
  t.any fun es => es.1.isGetScreen && es.2.vnc_screen.isSome

/-- In this trace `calloc` was called and returned a block. -/
def allocatedIn (t : List (Event × State)) : Bool :=
  t.any fun es => es.1.isCalloc && es.2.block.isSome

/-- Everything the run acquired is released exactly once: `wl_display_destroy` on the
display is called once and is the last statement; `rfbScreenCleanup` is called once,
on the screen, if `rfbGetScreen` returned one, and never otherwise; `free` is called
once, on the frame buffer, if `calloc` returned it, and never otherwise. -/
def Released (w : World) (r : Run) : Prop :=
  callsOf Event.isDestroy r.trace = [.wl_display_destroy w.wl_display_create] ∧
  lastCall r.trace = some (.wl_display_destroy w.wl_display_create) ∧
  callsOf Event.isCleanup r.trace =
    (if gotScreenIn r.trace then
      [.rfbScreenCleanup ((w.rfbGetScreen w.argv 800 600 8 3 4).map Prod.fst)]
    else []) ∧
  callsOf Event.isFree r.trace = (if allocatedIn r.trace then [.free w.calloc] else [])

/-- The bring-up steps of the run are, in this order and each exactly once: socket,
`WAYLAND_DISPLAY` set to the socket name, backend start, headless output, SHM, fork,
event loop; the socket, the backend start and the headless output succeeded. -/
def OrderedBringUp (w : World) (r : Run) : Prop :=
  callsOf Event.isBringUp r.trace =
    [.wl_display_add_socket_auto w.wl_display_create,
     .setenv "WAYLAND_DISPLAY" w.wl_display_add_socket_auto 1,
     .wlr_backend_start w.wlr_headless_backend_create,
     .wlr_headless_add_output w.wlr_headless_backend_create 800 600,
     .wlr_shm_create w.wl_display_create 1,
     .fork,
     .wl_display_run w.wl_display_create] ∧
  w.wl_display_add_socket_auto ≠ none ∧ w.wlr_backend_start = true ∧
  w.wlr_headless_add_output ≠ NULL

/-- The message printed right after `rfbInitServer` (line 129). -/
def Event.isListening : Event → Bool
  | .fprintf_stderr format _ => format == "VNC server listening on port %d\n"
  | _ => false

/-- Every entry of the trace satisfies `P`. -/
def AllEntries (P : Event × State → Prop) (t : List (Event × State)) : Prop :=
  ∀ es ∈ t, P es

/-- At a call of `rfbInitServer` the port of the screen is 5901, and the port printed by
the "listening" message is 5901. -/
def PortIs5901 (es : Event × State) : Prop :=
  (es.1.isInit = true → ∃ sc, es.2.screen = some sc ∧ sc.port = 5901) ∧
  (∀ format args, es.1 = .fprintf_stderr format args → es.1.isListening = true →
    args = [5901])

/-- The block has the size of the frame buffer, 800 x 600 x 4 bytes, all zero. -/
def ZeroFilled (b : Block) : Prop :=
  b.bytes.length = 800 * 600 * 4 ∧ ∀ x ∈ b.bytes, x = 0

/-- The frame buffer block, as long as it is allocated, is zero-filled right after this
trace entry; and if the entry is the call of `rfbInitServer`, the block is allocated
and `vnc_screen->frameBuffer` points to it. -/
def FrameBufferZero (es : Event × State) : Prop :=
  (∀ b, es.2.block = some b → ZeroFilled b) ∧
  (es.1.isInit = true →
    ∃ b sc, es.2.block = some b ∧ es.2.screen = some sc ∧ sc.frameBuffer = some b.addr)

/-- The geometry used at this trace entry: `rfbGetScreen` is asked for 800 x 600 with 4
bytes per pixel, `calloc` is asked for 800 x 600 x 4 bytes and the block it returns has
that length, `wlr_headless_add_output` is asked for 800 x 600. -/
def GeometryAt (es : Event × State) : Prop :=
  (∀ argv width height bitsPerSample samplesPerPixel bytesPerPixel,
    es.1 = .rfbGetScreen argv width height bitsPerSample samplesPerPixel bytesPerPixel →
      width = 800 ∧ height = 600 ∧ bytesPerPixel = 4) ∧
  (∀ nmemb size, es.1 = .calloc nmemb size →
    nmemb * size = 800 * 600 * 4 ∧
    ∀ b, es.2.block = some b → b.bytes.length = 800 * 600 * 4) ∧
  (∀ backend width height, es.1 = .wlr_headless_add_output backend width height →
    width = 800 ∧ height = 600)

/-- The first call of `rfbInitServer` in the run, with the state right after it. -/
def firstInit (w : World) : Option (Event × State) :=
  (main w).trace.find? (fun es => es.1.isInit)

/-- The screen `worldOk` hands to `rfbInitServer`. -/
def worldOkScreen : rfbScreenInfo :=
  { width := 800
    height := 600
    serverFormat :=
      { bitsPerPixel := 32, depth := 24, redMax := 255, greenMax := 255, blueMax := 255,
        redShift := 16, greenShift := 8, blueShift := 0 }
    bitsPerPixel := 32
    depth := 24
    alwaysShared := true
    port := 5901
    frameBuffer := some 9 }

/-- The directory `main` falls back to when `XDG_RUNTIME_DIR` is unset (line 53). -/
def XDG_DEFAULT : String := "/data/data/com.termux/files/usr/tmp/wayland"

/-- The value of `XDG_RUNTIME_DIR` in effect in the run: the one found on entry, or
the fallback. -/
def effectiveXdg (w : World) : String :=
  (getenv w.environ "XDG_RUNTIME_DIR").getD XDG_DEFAULT

/-- A call that touches the runtime directory: `setenv("XDG_RUNTIME_DIR", ...)` or
`mkdir`. -/
def Event.isXdgCall : Event → Bool
  | .setenv name _ _ => name == "XDG_RUNTIME_DIR"
  | .mkdir _ _ => true
  | _ => false

/-- A call of `mkdir`. -/
def Event.isMkdir : Event → Bool
  | .mkdir _ _ => true
  | _ => false

/-- A call of `execl`. -/
def Event.isExecl : Event → Bool
  | .execl _ _ => true
  | _ => false

/-- Right after this trace entry `XDG_RUNTIME_DIR` has the value `v`. -/
def XdgIs (v : String) (es : Event × State) : Prop :=
  getenv es.2.environ "XDG_RUNTIME_DIR" = some v

/-- From every call that touches the runtime directory on, `XDG_RUNTIME_DIR` has the
value `v`: right after that call and right after every later entry. -/
def XdgSince (v : String) (t : List (Event × State)) : Prop :=
  AllEntries (fun es => es.1.isXdgCall = true → XdgIs v es) t ∧
  t.Pairwise (fun a b => a.1.isXdgCall = true → XdgIs v b)

/-- At `fork` and at `execl` the environment holds `XDG_RUNTIME_DIR = v` and
`WAYLAND_DISPLAY` equal to the socket name returned by `wl_display_add_socket_auto`;
and `execl` is called on the terminal. -/
def LaunchEnv (w : World) (v : String) (es : Event × State) : Prop :=
  ((es.1 = .fork ∨ es.1.isExecl = true) →
    getenv es.2.environ "XDG_RUNTIME_DIR" = some v ∧
    getenv es.2.environ "WAYLAND_DISPLAY" = w.wl_display_add_socket_auto ∧
    w.wl_display_add_socket_auto ≠ none) ∧
  (es.1.isExecl = true →
    es.1 = .execl "/data/data/com.termux/files/usr/bin/alacritty" ["alacritty"])

/-- The terminal is launched with the environment of the parent: `LaunchEnv` holds at
every trace entry, and if the run ends in a successful `execl`, the new process image
is the terminal and its environment has `XDG_RUNTIME_DIR = v` and `WAYLAND_DISPLAY`
equal to the socket name. -/
def LaunchesWith (w : World) (v : String) (r : Run) : Prop :=
  AllEntries (LaunchEnv w v) r.trace ∧
  ∀ path args environ, r.outcome = .execd path args environ →
    path = "/data/data/com.termux/files/usr/bin/alacritty" ∧ args = ["alacritty"] ∧
    getenv environ "XDG_RUNTIME_DIR" = some v ∧
    getenv environ "WAYLAND_DISPLAY" = w.wl_display_add_socket_auto ∧
    w.wl_display_add_socket_auto ≠ none

/-- The call of `fork`. -/
def Event.isFork : Event → Bool
  | .fork => true
  | _ => false

/-- The statements of the run from the first `fork` on, `fork` included. -/
def afterFork (t : List (Event × State)) : List Event :=
  (t.map Prod.fst).dropWhile (fun e => !e.isFork)

/-- The forked child launches the terminal: from `fork` on it calls
`setenv("WAYLAND_DISPLAY", socket, 1)`, `setenv("XDG_RUNTIME_DIR", v, 1)` and `execl` of
the terminal, in this order and nothing else; if `execl` succeeds the process image
is replaced, with the environment of that moment, and otherwise the child calls
`perror` and `_exit(1)`. -/
def ChildExecs (w : World) (v : String) (r : Run) : Prop :=
  afterFork r.trace =
    [.fork,
     .setenv "WAYLAND_DISPLAY" w.wl_display_add_socket_auto 1,
     .setenv "XDG_RUNTIME_DIR" (some v) 1,
     .execl "/data/data/com.termux/files/usr/bin/alacritty" ["alacritty"]] ++
      (if w.execl_succeeds then []
       else [.perror "Failed to launch alacritty", ._exit 1]) ∧
  r.outcome =
    (if w.execl_succeeds then
      .execd "/data/data/com.termux/files/usr/bin/alacritty" ["alacritty"] r.final.environ
    else .exited 1)

/-! ## Invariants used in the proofs -/

/-- Nothing was released so far, with the screen and the frame buffer in hand. -/
def HoldsAll (w : World) (m : Machine) : Prop :=
  m.st.server.display = w.wl_display_create ∧
  callsOf Event.isDestroy m.trace = [] ∧
  callsOf Event.isCleanup m.trace = [] ∧
  callsOf Event.isFree m.trace = [] ∧
  gotScreenIn m.trace = true ∧ allocatedIn m.trace = true ∧
  m.st.vnc_screen = (w.rfbGetScreen w.argv 800 600 8 3 4).map Prod.fst ∧
  m.st.vnc_screen ≠ NULL ∧ m.st.frameBuffer = w.calloc

/-- Nothing was acquired from libvncserver or the heap so far, nothing released. -/
def HoldsDisplay (w : World) (m : Machine) : Prop :=
  m.st.server.display = w.wl_display_create ∧
  callsOf Event.isDestroy m.trace = [] ∧
  callsOf Event.isCleanup m.trace = [] ∧
  callsOf Event.isFree m.trace = [] ∧
  gotScreenIn m.trace = false ∧ allocatedIn m.trace = false

/-- The state still has the configured screen, if any. -/
def StillConfigured (s : State) : Prop :=
  ∀ sc, s.screen = some sc → Configured sc

/-- The block of the state, if any, is zero-filled. -/
def BlockZero (s : State) : Prop :=
  ∀ b, s.block = some b → ZeroFilled b

/-- The runtime directory is `v`, in the environment and in the local variable. -/
def EnvInv (v : String) (s : State) : Prop :=
  getenv s.environ "XDG_RUNTIME_DIR" = some v ∧ s.xdg_runtime_dir = some v

/-! ## Theorems -/

/-! ### Bookkeeping of the machine -/

@[simp] theorem Machine.exec_st (m : Machine) (ev : Event) (f : State → State) :
    (m.exec ev f).st = f m.st := rfl

@[simp] theorem Machine.exec_trace (m : Machine) (ev : Event) (f : State → State) :
    (m.exec ev f).trace = m.trace ++ [(ev, f m.st)] := rfl

@[simp] theorem Machine.call_st (m : Machine) (ev : Event) : (m.call ev).st = m.st := rfl

@[simp] theorem Machine.call_trace (m : Machine) (ev : Event) :
    (m.call ev).trace = m.trace ++ [(ev, m.st)] := rfl

@[simp] theorem Machine.finish_trace (m : Machine) (o : Outcome) :
    (m.finish o).trace = m.trace := rfl

@[simp] theorem Machine.finish_outcome (m : Machine) (o : Outcome) :
    (m.finish o).outcome = o := rfl

@[simp] theorem Machine.finish_final (m : Machine) (o : Outcome) :
    (m.finish o).final = m.st := rfl

@[simp] theorem State.setScreen_environ (f : rfbScreenInfo → rfbScreenInfo) (s : State) :
    (State.setScreen f s).environ = s.environ := rfl

@[simp] theorem State.setScreen_xdg_runtime_dir (f : rfbScreenInfo → rfbScreenInfo) (s : State) :
    (State.setScreen f s).xdg_runtime_dir = s.xdg_runtime_dir := rfl

@[simp] theorem State.setScreen_server (f : rfbScreenInfo → rfbScreenInfo) (s : State) :
    (State.setScreen f s).server = s.server := rfl

@[simp] theorem State.setScreen_vnc_screen (f : rfbScreenInfo → rfbScreenInfo) (s : State) :
    (State.setScreen f s).vnc_screen = s.vnc_screen := rfl

@[simp] theorem State.setScreen_block (f : rfbScreenInfo → rfbScreenInfo) (s : State) :
    (State.setScreen f s).block = s.block := rfl

@[simp] theorem State.setScreen_fbsize (f : rfbScreenInfo → rfbScreenInfo) (s : State) :
    (State.setScreen f s).fbsize = s.fbsize := rfl

@[simp] theorem State.setScreen_socket (f : rfbScreenInfo → rfbScreenInfo) (s : State) :
    (State.setScreen f s).socket = s.socket := rfl

@[simp] theorem State.setScreen_output_name (f : rfbScreenInfo → rfbScreenInfo) (s : State) :
    (State.setScreen f s).output_name = s.output_name := rfl

@[simp] theorem State.setScreen_shm (f : rfbScreenInfo → rfbScreenInfo) (s : State) :
    (State.setScreen f s).shm = s.shm := rfl

@[simp] theorem State.setScreen_pid (f : rfbScreenInfo → rfbScreenInfo) (s : State) :
    (State.setScreen f s).pid = s.pid := rfl

@[simp] theorem State.setScreen_screen (f : rfbScreenInfo → rfbScreenInfo) (s : State) :
    (State.setScreen f s).screen = s.screen.map f := rfl

@[simp] theorem callsOf_nil (p : Event → Bool) : callsOf p [] = [] := rfl

@[simp] theorem callsOf_append (p : Event → Bool) (t u : List (Event × State)) :
    callsOf p (t ++ u) = callsOf p t ++ callsOf p u := by
  simp [callsOf]

@[simp] theorem callsOf_cons (p : Event → Bool) (e : Event) (s : State)
    (t : List (Event × State)) :
    callsOf p ((e, s) :: t) = if p e then e :: callsOf p t else callsOf p t := by
  simp [callsOf, List.filter_cons]

@[simp] theorem lastCall_singleton (e : Event) (s : State) : lastCall [(e, s)] = some e := rfl

@[simp] theorem lastCall_cons_cons (x y : Event × State) (t : List (Event × State)) :
    lastCall (x :: y :: t) = lastCall (y :: t) := by
  simp [lastCall]

@[simp] theorem lastCall_append_cons (t u : List (Event × State)) (x : Event × State) :
    lastCall (t ++ x :: u) = lastCall (x :: u) := by
  have h : t.map Prod.fst ++ (x.1 :: u.map Prod.fst) ≠ [] := by simp
  simp [lastCall, List.getLast?_eq_getLast, h, List.getLast_append]

@[simp] theorem gotScreenIn_nil : gotScreenIn [] = false := rfl

@[simp] theorem gotScreenIn_append (t u : List (Event × State)) :
    gotScreenIn (t ++ u) = (gotScreenIn t || gotScreenIn u) := by
  simp [gotScreenIn]

@[simp] theorem gotScreenIn_cons (e : Event) (s : State) (t : List (Event × State)) :
    gotScreenIn ((e, s) :: t) = ((e.isGetScreen && s.vnc_screen.isSome) || gotScreenIn t) := by
  simp [gotScreenIn]

@[simp] theorem allocatedIn_nil : allocatedIn [] = false := rfl

@[simp] theorem allocatedIn_append (t u : List (Event × State)) :
    allocatedIn (t ++ u) = (allocatedIn t || allocatedIn u) := by
  simp [allocatedIn]

@[simp] theorem allocatedIn_cons (e : Event) (s : State) (t : List (Event × State)) :
    allocatedIn ((e, s) :: t) = ((e.isCalloc && s.block.isSome) || allocatedIn t) := by
  simp [allocatedIn]

/-! ### When `main` returns, and with which status -/

theorem fail_display_outcome (m : Machine) :
    (fail_display m).outcome = .returned EXIT_SUCCESS := rfl

theorem fail_vnc_outcome (m : Machine) :
    (fail_vnc m).outcome = .returned EXIT_SUCCESS := by
  unfold fail_vnc
  split_ifs <;> rfl

theorem main_launch_returned (w : World) (m : Machine) (c : Int) :
    (main_launch w m).outcome = .returned c ↔
      EXIT_SUCCESS = c ∧ w.fork ≠ 0 ∧ w.wl_display_run_returns = true := by
  unfold main_launch
  simp only [Machine.exec_st, Machine.call_st, Machine.finish_outcome]
  split_ifs <;> simp_all [fail_vnc_outcome]

theorem main_wayland_returned (w : World) (m : Machine) (c : Int) :
    (main_wayland w m).outcome = .returned c ↔
      EXIT_SUCCESS = c ∧
        (w.wl_display_add_socket_auto = none ∨ w.wlr_backend_start = false ∨
          w.wlr_headless_add_output = NULL ∨
          (w.fork ≠ 0 ∧ w.wl_display_run_returns = true)) := by
  unfold main_wayland
  simp only [Machine.exec_st, Machine.call_st, Machine.finish_outcome]
  split_ifs <;> simp_all [fail_vnc_outcome, main_launch_returned]

theorem main_vnc_returned (w : World) (m : Machine) (c : Int) :
    (main_vnc w m).outcome = .returned c ↔
      EXIT_SUCCESS = c ∧
        (w.rfbGetScreen w.argv 800 600 8 3 4 = none ∨ w.calloc = NULL ∨
          w.pthread_create ≠ 0 ∨ w.wl_display_add_socket_auto = none ∨
          w.wlr_backend_start = false ∨ w.wlr_headless_add_output = NULL ∨
          (w.fork ≠ 0 ∧ w.wl_display_run_returns = true)) := by
  rcases hg : w.rfbGetScreen w.argv 800 600 8 3 4 with _ | ⟨p, sc⟩ <;>
    rcases hc : w.calloc with _ | a <;>
    simp [main_vnc, hg, hc, fail_display_outcome, main_wayland_returned, State.frameBuffer]
  split_ifs <;> simp_all [fail_display_outcome, main_wayland_returned]

theorem main_compositor_returned (w : World) (m : Machine) (c : Int) :
    (main_compositor w m).outcome = .returned c ↔
      EXIT_SUCCESS = c ∧ (InitFailure w ∨ (w.fork ≠ 0 ∧ w.wl_display_run_returns = true)) := by
  unfold main_compositor InitFailure
  simp only [Machine.exec_st, Machine.call_st, Machine.finish_outcome]
  split_ifs <;> simp_all [fail_display_outcome, main_vnc_returned]
  intro _
  tauto

theorem main_returned (w : World) (c : Int) :
    (main w).outcome = .returned c ↔
      (w.wl_display_create = NULL ∧ EXIT_FAILURE = c) ∨
      (w.wl_display_create ≠ NULL ∧ EXIT_SUCCESS = c ∧
        (InitFailure w ∨ (w.fork ≠ 0 ∧ w.wl_display_run_returns = true))) := by
  unfold main
  simp only [Machine.exec_st, Machine.call_st, Machine.finish_outcome]
  split_ifs <;> simp_all [main_compositor_returned]

/-! ### Claim C9 -/

/-- C9: `main` returns `EXIT_FAILURE` exactly when `wl_display_create` fails.  When the
display was created, every initialization failure (backend, renderer, compositor,
xdg-shell, output layout, `rfbGetScreen`, frame buffer allocation, VNC thread, socket,
backend start, headless output) makes `main` return `EXIT_SUCCESS`, which is also the
status of the normal shutdown of the parent, and no other status is ever returned. -/
theorem main_exit_status (w : World) :
    ((main w).outcome = .returned EXIT_FAILURE ↔ w.wl_display_create = NULL) ∧
    (w.wl_display_create ≠ NULL → InitFailure w →
      (main w).outcome = .returned EXIT_SUCCESS) ∧
    (w.wl_display_create ≠ NULL → w.fork ≠ 0 → w.wl_display_run_returns = true →
      (main w).outcome = .returned EXIT_SUCCESS) ∧
    (w.wl_display_create ≠ NULL → ∀ c, (main w).outcome = .returned c → c = EXIT_SUCCESS) := by
  refine ⟨?_, ?_, ?_, ?_⟩
  · rw [main_returned]
    simp [EXIT_SUCCESS, EXIT_FAILURE]
  · intro hd hf
    rw [main_returned]
    exact Or.inr ⟨hd, rfl, Or.inl hf⟩
  · intro hd hp hr
    rw [main_returned]
    exact Or.inr ⟨hd, rfl, Or.inr ⟨hp, hr⟩⟩
  · intro hd c hc
    rw [main_returned] at hc
    rcases hc with ⟨h, _⟩ | ⟨_, h, _⟩
    · exact absurd h hd
    · exact h.symm

/-- C9 at concrete worlds: a failed `wl_display_create` returns `EXIT_FAILURE`; a
failed headless output and a normal shutdown both return `EXIT_SUCCESS`. -/
theorem main_exit_status_witness :
    (worldNoDisplay.wl_display_create = NULL ∧
      (main worldNoDisplay).outcome = .returned EXIT_FAILURE) ∧
    (worldNoOutput.wl_display_create ≠ NULL ∧ InitFailure worldNoOutput ∧
      (main worldNoOutput).outcome = .returned EXIT_SUCCESS) ∧
    (worldOk.fork ≠ 0 ∧ worldOk.wl_display_run_returns = true ∧
      (main worldOk).outcome = .returned EXIT_SUCCESS ∧
      ∀ c, (main worldOk).outcome = .returned c → c = EXIT_SUCCESS) :=
  ⟨⟨by decide, (main_exit_status worldNoDisplay).1.2 (by decide)⟩,
    ⟨by decide, by unfold InitFailure; decide,
      (main_exit_status worldNoOutput).2.1 (by decide) (by unfold InitFailure; decide)⟩,
    ⟨by decide, by decide,
      (main_exit_status worldOk).2.2.1 (by decide) (by decide) (by decide),
      (main_exit_status worldOk).2.2.2 (by decide)⟩⟩

/-! ### Claim C6 -/

theorem fail_vnc_released (w : World) (m : Machine) (h : HoldsAll w m) :
    Released w (fail_vnc m) := by
  obtain ⟨h1, h2, h3, h4, h5, h6, h7, h8, h9⟩ := h
  simp [fail_vnc, fail_display, Released, h1, h2, h3, h4, h5, h6, h8, h9, ← h7,
    Event.isDestroy, Event.isCleanup, Event.isFree, Event.isGetScreen, Event.isCalloc]

theorem main_launch_released (w : World) (m : Machine) (h : HoldsAll w m) (c : Int)
    (hc : (main_launch w m).outcome = .returned c) : Released w (main_launch w m) := by
  obtain ⟨h1, h2, h3, h4, h5, h6, h7, h8, h9⟩ := h
  simp only [State.frameBuffer] at h9
  unfold main_launch at hc ⊢
  simp only [Machine.exec_st, Machine.call_st, Machine.finish_outcome] at hc ⊢
  split_ifs at hc ⊢ <;> first
    | (simp at hc; done)
    | (apply fail_vnc_released
       simp [HoldsAll, h1, h2, h3, h4, h5, h6, h8, h9, ← h7, State.frameBuffer,
         Event.isDestroy, Event.isCleanup, Event.isFree, Event.isGetScreen, Event.isCalloc])

theorem main_wayland_released (w : World) (m : Machine) (h : HoldsAll w m) (c : Int)
    (hc : (main_wayland w m).outcome = .returned c) : Released w (main_wayland w m) := by
  obtain ⟨h1, h2, h3, h4, h5, h6, h7, h8, h9⟩ := h
  simp only [State.frameBuffer] at h9
  unfold main_wayland at hc ⊢
  simp only [Machine.exec_st, Machine.call_st, Machine.finish_outcome] at hc ⊢
  split_ifs at hc ⊢ <;> first
    | (apply fail_vnc_released
       simp [HoldsAll, h1, h2, h3, h4, h5, h6, h8, h9, ← h7, State.frameBuffer,
         Event.isDestroy, Event.isCleanup, Event.isFree, Event.isGetScreen, Event.isCalloc])
    | (apply main_launch_released _ _ _ c hc
       simp [HoldsAll, h1, h2, h3, h4, h5, h6, h8, h9, ← h7, State.frameBuffer,
         Event.isDestroy, Event.isCleanup, Event.isFree, Event.isGetScreen, Event.isCalloc])

theorem main_vnc_released (w : World) (m : Machine) (h : HoldsDisplay w m) (c : Int)
    (hc : (main_vnc w m).outcome = .returned c) : Released w (main_vnc w m) := by
  obtain ⟨h1, h2, h3, h4, h5, h6⟩ := h
  rcases hg : w.rfbGetScreen w.argv 800 600 8 3 4 with _ | ⟨p, sc⟩
  · simp [main_vnc, hg, fail_display, Released, h1, h2, h3, h4, h5, h6,
      Event.isDestroy, Event.isCleanup, Event.isFree, Event.isGetScreen, Event.isCalloc]
  · rcases ha : w.calloc with _ | a
    · simp [main_vnc, hg, ha, fail_display, Released, h1, h2, h3, h4, h5, h6, State.frameBuffer,
        Event.isDestroy, Event.isCleanup, Event.isFree, Event.isGetScreen, Event.isCalloc]
    · by_cases hp : w.pthread_create = 0
      · simp only [main_vnc, hg, ha, hp, Machine.exec_st, Machine.call_st, State.frameBuffer,
          Option.map_some', reduceCtorEq, if_false, ne_eq, not_true_eq_false] at hc ⊢
        apply main_wayland_released _ _ _ c hc
        simp [HoldsAll, hg, ha, h1, h2, h3, h4, h5, h6, State.frameBuffer, State.setScreen,
          Event.isDestroy, Event.isCleanup, Event.isFree, Event.isGetScreen, Event.isCalloc]
      · simp [main_vnc, hg, ha, hp, fail_display, Released, h1, h2, h3, h4, h5, h6,
          State.frameBuffer, State.setScreen,
          Event.isDestroy, Event.isCleanup, Event.isFree, Event.isGetScreen, Event.isCalloc]

theorem main_compositor_released (w : World) (m : Machine) (h : HoldsDisplay w m) (c : Int)
    (hc : (main_compositor w m).outcome = .returned c) :
    Released w (main_compositor w m) := by
  obtain ⟨h1, h2, h3, h4, h5, h6⟩ := h
  unfold main_compositor at hc ⊢
  simp only [Machine.exec_st, Machine.call_st, Machine.finish_outcome] at hc ⊢
  split_ifs at hc ⊢ <;> first
    | (apply main_vnc_released _ _ _ c hc
       simp [HoldsDisplay, h1, h2, h3, h4, h5, h6,
         Event.isDestroy, Event.isCleanup, Event.isFree, Event.isGetScreen, Event.isCalloc])
    | simp [fail_display, Released, h1, h2, h3, h4, h5, h6,
        Event.isDestroy, Event.isCleanup, Event.isFree, Event.isGetScreen, Event.isCalloc]

/-- C6: on every run of `main` in which `wl_display_create` succeeds and which
returns (an initialization step failed, or `wl_display_run` came back),
`wl_display_destroy` is called exactly once, on the display, and is the last statement;
`rfbScreenCleanup` is called exactly once, on the screen, if `rfbGetScreen` returned a
screen and never otherwise; `free` is called exactly once, on the frame buffer, if
`calloc` succeeded and never otherwise. -/
theorem main_releases_exactly_once (w : World) (c : Int)
    (hd : w.wl_display_create ≠ NULL) (hc : (main w).outcome = .returned c) :
    Released w (main w) := by
  unfold main at hc ⊢
  simp only [Machine.exec_st, Machine.call_st, Machine.finish_outcome] at hc ⊢
  split_ifs at hc ⊢ <;> first
    | contradiction
    | (apply main_compositor_released _ _ _ c hc
       simp [HoldsDisplay, initial,
         Event.isDestroy, Event.isCleanup, Event.isFree, Event.isGetScreen, Event.isCalloc])

/-- C6 at concrete worlds: the normal shutdown, a failed headless output and a failed
`calloc` all release what was acquired. -/
theorem main_releases_exactly_once_witness :
    (worldOk.wl_display_create ≠ NULL ∧ (main worldOk).outcome = .returned 0 ∧
      Released worldOk (main worldOk)) ∧
    (worldNoOutput.wl_display_create ≠ NULL ∧ (main worldNoOutput).outcome = .returned 0 ∧
      Released worldNoOutput (main worldNoOutput)) ∧
    (worldNoMemory.wl_display_create ≠ NULL ∧ (main worldNoMemory).outcome = .returned 0 ∧
      Released worldNoMemory (main worldNoMemory)) :=
  ⟨⟨by decide, by decide, main_releases_exactly_once worldOk 0 (by decide) (by decide)⟩,
    ⟨by decide, by decide,
      main_releases_exactly_once worldNoOutput 0 (by decide) (by decide)⟩,
    ⟨by decide, by decide,
      main_releases_exactly_once worldNoMemory 0 (by decide) (by decide)⟩⟩

/-! ### Claim C7 -/

theorem fail_display_callsOf (p : Event → Bool) (hd : ∀ x, p (.wl_display_destroy x) = false)
    (m : Machine) : callsOf p (fail_display m).trace = callsOf p m.trace := by
  simp [fail_display, hd]

theorem fail_vnc_callsOf (p : Event → Bool) (hf : ∀ x, p (.free x) = false)
    (hc : ∀ x, p (.rfbScreenCleanup x) = false) (hd : ∀ x, p (.wl_display_destroy x) = false)
    (m : Machine) : callsOf p (fail_vnc m).trace = callsOf p m.trace := by
  unfold fail_vnc
  split_ifs <;> simp [fail_display, hf, hc, hd]

theorem fail_display_isRun (m : Machine) :
    callsOf Event.isRun (fail_display m).trace = callsOf Event.isRun m.trace :=
  fail_display_callsOf _ (fun _ => rfl) m

theorem fail_vnc_isRun (m : Machine) :
    callsOf Event.isRun (fail_vnc m).trace = callsOf Event.isRun m.trace :=
  fail_vnc_callsOf _ (fun _ => rfl) (fun _ => rfl) (fun _ => rfl) m

theorem fail_vnc_isBringUp (m : Machine) :
    callsOf Event.isBringUp (fail_vnc m).trace = callsOf Event.isBringUp m.trace :=
  fail_vnc_callsOf _ (fun _ => rfl) (fun _ => rfl) (fun _ => rfl) m

theorem main_launch_ordered (w : World) (m : Machine)
    (h1 : m.st.server.display = w.wl_display_create)
    (h2 : callsOf Event.isBringUp m.trace =
      [.wl_display_add_socket_auto w.wl_display_create,
       .setenv "WAYLAND_DISPLAY" w.wl_display_add_socket_auto 1,
       .wlr_backend_start w.wlr_headless_backend_create,
       .wlr_headless_add_output w.wlr_headless_backend_create 800 600,
       .wlr_shm_create w.wl_display_create 1])
    (h3 : callsOf Event.isRun m.trace = [])
    (h4 : w.wl_display_add_socket_auto ≠ none ∧ w.wlr_backend_start = true ∧
      w.wlr_headless_add_output ≠ NULL)
    (hr : callsOf Event.isRun (main_launch w m).trace ≠ []) :
    OrderedBringUp w (main_launch w m) := by
  unfold main_launch at hr ⊢
  simp only [Machine.exec_st, Machine.call_st] at hr ⊢
  split_ifs at hr ⊢ <;>
    simp_all [OrderedBringUp, fail_vnc_isRun, fail_vnc_isBringUp, Event.isRun,
      Event.isBringUp]

theorem main_wayland_ordered (w : World) (m : Machine)
    (h1 : m.st.server.display = w.wl_display_create)
    (h2 : m.st.server.backend = w.wlr_headless_backend_create)
    (h3 : callsOf Event.isBringUp m.trace = [])
    (h4 : callsOf Event.isRun m.trace = [])
    (hr : callsOf Event.isRun (main_wayland w m).trace ≠ []) :
    OrderedBringUp w (main_wayland w m) := by
  unfold main_wayland at hr ⊢
  simp only [Machine.exec_st, Machine.call_st] at hr ⊢
  split_ifs at hr ⊢ <;> first
    | (simp [fail_vnc_isRun, h4, Event.isRun] at hr; done)
    | (apply main_launch_ordered _ _ _ _ _ _ hr <;>
        simp_all [Event.isRun, Event.isBringUp])

theorem main_vnc_ordered (w : World) (m : Machine)
    (h1 : m.st.server.display = w.wl_display_create)
    (h2 : m.st.server.backend = w.wlr_headless_backend_create)
    (h3 : callsOf Event.isBringUp m.trace = [])
    (h4 : callsOf Event.isRun m.trace = [])
    (hr : callsOf Event.isRun (main_vnc w m).trace ≠ []) :
    OrderedBringUp w (main_vnc w m) := by
  unfold main_vnc at hr ⊢
  simp only [Machine.exec_st, Machine.call_st] at hr ⊢
  split_ifs at hr ⊢ <;> first
    | (simp [fail_display_isRun, h4, Event.isRun] at hr; done)
    | (apply main_wayland_ordered _ _ _ _ _ _ hr <;>
        simp_all [Event.isRun, Event.isBringUp, State.setScreen])

theorem main_compositor_ordered (w : World) (m : Machine)
    (h1 : m.st.server.display = w.wl_display_create)
    (h3 : callsOf Event.isBringUp m.trace = [])
    (h4 : callsOf Event.isRun m.trace = [])
    (hr : callsOf Event.isRun (main_compositor w m).trace ≠ []) :
    OrderedBringUp w (main_compositor w m) := by
  unfold main_compositor at hr ⊢
  simp only [Machine.exec_st, Machine.call_st] at hr ⊢
  split_ifs at hr ⊢ <;> first
    | (simp [fail_display_isRun, h4, Event.isRun] at hr; done)
    | (apply main_vnc_ordered _ _ _ _ _ _ hr <;>
        simp_all [Event.isRun, Event.isBringUp])

/-- C7: on every run of `main` that reaches `wl_display_run`, the bring-up steps occur
in this order, each exactly once: the Wayland socket is added, `WAYLAND_DISPLAY` is set
to its name, `wlr_backend_start`, `wlr_headless_add_output` (before SHM),
`wlr_shm_create`, `fork` (before the main loop), `wl_display_run`; and the socket, the
backend start and the headless output all succeeded. -/
theorem main_bring_up_order (w : World)
    (hr : callsOf Event.isRun (main w).trace ≠ []) : OrderedBringUp w (main w) := by
  unfold main at hr ⊢
  simp only [Machine.exec_st, Machine.call_st] at hr ⊢
  split_ifs at hr ⊢ <;> first
    | (simp [Event.isRun] at hr; done)
    | (apply main_compositor_ordered _ _ _ _ _ hr <;>
        simp [initial, Event.isRun, Event.isBringUp])

/-- C7 at concrete worlds: the normal run, and the run in which SHM and `fork` fail. -/
theorem main_bring_up_order_witness :
    (callsOf Event.isRun (main worldOk).trace ≠ [] ∧ OrderedBringUp worldOk (main worldOk)) ∧
    (callsOf Event.isRun (main worldNoShmNoFork).trace ≠ [] ∧
      OrderedBringUp worldNoShmNoFork (main worldNoShmNoFork)) :=
  ⟨⟨by decide, main_bring_up_order worldOk (by decide)⟩,
    ⟨by decide, main_bring_up_order worldNoShmNoFork (by decide)⟩⟩

/-! ### Claim C8 -/

theorem main_launch_runs (w : World) (m : Machine)
    (h1 : m.st.server.display = w.wl_display_create)
    (h2 : callsOf Event.isRun m.trace = []) (hf : w.fork ≠ 0) :
    callsOf Event.isRun (main_launch w m).trace = [.wl_display_run w.wl_display_create] := by
  unfold main_launch
  simp only [Machine.exec_st, Machine.call_st]
  split_ifs <;> simp_all [fail_vnc_isRun, Event.isRun]

theorem main_wayland_runs (w : World) (m : Machine)
    (h1 : m.st.server.display = w.wl_display_create)
    (h2 : callsOf Event.isRun m.trace = []) (hf : w.fork ≠ 0)
    (hs : w.wl_display_add_socket_auto ≠ none) (hb : w.wlr_backend_start = true)
    (ho : w.wlr_headless_add_output ≠ NULL) :
    callsOf Event.isRun (main_wayland w m).trace = [.wl_display_run w.wl_display_create] := by
  unfold main_wayland
  simp only [Machine.exec_st, Machine.call_st]
  split_ifs <;> first
    | contradiction
    | (simp_all; done)
    | (apply main_launch_runs _ _ _ _ hf <;> simp_all [Event.isRun])

theorem main_wayland_skips (w : World) (m : Machine)
    (h1 : m.st.server.display = w.wl_display_create)
    (h2 : callsOf Event.isRun m.trace = [])
    (h3 : callsOf Event.isRelease m.trace = [])
    (h4 : m.st.vnc_screen = (w.rfbGetScreen w.argv 800 600 8 3 4).map Prod.fst)
    (h5 : m.st.vnc_screen ≠ NULL) (h6 : m.st.frameBuffer = w.calloc)
    (hf : w.wl_display_add_socket_auto = none ∨ w.wlr_backend_start = false ∨
      w.wlr_headless_add_output = NULL) :
    callsOf Event.isRun (main_wayland w m).trace = [] ∧
    callsOf Event.isRelease (main_wayland w m).trace =
      [.free w.calloc,
       .rfbScreenCleanup ((w.rfbGetScreen w.argv 800 600 8 3 4).map Prod.fst),
       .wl_display_destroy w.wl_display_create] ∧
    (main_wayland w m).outcome = .returned EXIT_SUCCESS := by
  simp only [State.frameBuffer] at h6
  unfold main_wayland
  simp only [Machine.exec_st, Machine.call_st]
  split_ifs <;> first
    | (simp_all; done)
    | simp [fail_vnc, fail_display, h1, h2, h3, ← h4, h5, h6, State.frameBuffer, Event.isRun,
        Event.isRelease, Event.isFree, Event.isCleanup, Event.isDestroy]

theorem main_vnc_runs (w : World) (m : Machine)
    (h1 : m.st.server.display = w.wl_display_create)
    (h2 : callsOf Event.isRun m.trace = []) (hf : w.fork ≠ 0)
    (hg : w.rfbGetScreen w.argv 800 600 8 3 4 ≠ none) (ha : w.calloc ≠ NULL)
    (hp : w.pthread_create = 0)
    (hs : w.wl_display_add_socket_auto ≠ none) (hb : w.wlr_backend_start = true)
    (ho : w.wlr_headless_add_output ≠ NULL) :
    callsOf Event.isRun (main_vnc w m).trace = [.wl_display_run w.wl_display_create] := by
  rcases hg' : w.rfbGetScreen w.argv 800 600 8 3 4 with _ | ⟨p, sc⟩
  · exact absurd hg' hg
  · rcases ha' : w.calloc with _ | a
    · exact absurd ha' ha
    · simp only [main_vnc, hg', ha', hp, Machine.exec_st, Machine.call_st, State.frameBuffer,
        Option.map_some', reduceCtorEq, if_false, ne_eq, not_true_eq_false]
      apply main_wayland_runs _ _ _ _ hf hs hb ho <;> simp_all [Event.isRun]

theorem main_vnc_skips (w : World) (m : Machine)
    (h1 : m.st.server.display = w.wl_display_create)
    (h2 : callsOf Event.isRun m.trace = [])
    (h3 : callsOf Event.isRelease m.trace = [])
    (hg : w.rfbGetScreen w.argv 800 600 8 3 4 ≠ none) (ha : w.calloc ≠ NULL)
    (hp : w.pthread_create = 0)
    (hf : w.wl_display_add_socket_auto = none ∨ w.wlr_backend_start = false ∨
      w.wlr_headless_add_output = NULL) :
    callsOf Event.isRun (main_vnc w m).trace = [] ∧
    callsOf Event.isRelease (main_vnc w m).trace =
      [.free w.calloc,
       .rfbScreenCleanup ((w.rfbGetScreen w.argv 800 600 8 3 4).map Prod.fst),
       .wl_display_destroy w.wl_display_create] ∧
    (main_vnc w m).outcome = .returned EXIT_SUCCESS := by
  rcases hg' : w.rfbGetScreen w.argv 800 600 8 3 4 with _ | ⟨p, sc⟩
  · exact absurd hg' hg
  · rcases ha' : w.calloc with _ | a
    · exact absurd ha' ha
    · simp only [main_vnc, hg', ha', hp, Machine.exec_st, Machine.call_st, State.frameBuffer,
        Option.map_some', reduceCtorEq, if_false, ne_eq, not_true_eq_false]
      have h := main_wayland_skips w
      simp only [hg', ha', Option.map_some'] at h
      apply h _ _ _ _ _ _ _ hf <;>
        simp_all [Event.isRun, Event.isRelease, Event.isFree, Event.isCleanup,
          Event.isDestroy, State.frameBuffer, State.setScreen]

theorem main_compositor_runs (w : World) (m : Machine)
    (h1 : m.st.server.display = w.wl_display_create)
    (h2 : callsOf Event.isRun m.trace = []) (hw : ReachesShm w) (hf : w.fork ≠ 0) :
    callsOf Event.isRun (main_compositor w m).trace =
      [.wl_display_run w.wl_display_create] := by
  obtain ⟨⟨⟨hd, hbk, hre, hco, hxd, hol, hg, ha⟩, hp⟩, hs, hb, ho⟩ := hw
  unfold main_compositor
  simp only [Machine.exec_st, Machine.call_st]
  split_ifs <;> first
    | contradiction
    | (apply main_vnc_runs _ _ _ _ hf hg ha hp hs hb ho <;> simp_all [Event.isRun])

theorem main_compositor_skips (w : World) (m : Machine)
    (h1 : m.st.server.display = w.wl_display_create)
    (h2 : callsOf Event.isRun m.trace = [])
    (h3 : callsOf Event.isRelease m.trace = []) (hw : ReachesSocket w)
    (hf : w.wl_display_add_socket_auto = none ∨ w.wlr_backend_start = false ∨
      w.wlr_headless_add_output = NULL) :
    callsOf Event.isRun (main_compositor w m).trace = [] ∧
    callsOf Event.isRelease (main_compositor w m).trace =
      [.free w.calloc,
       .rfbScreenCleanup ((w.rfbGetScreen w.argv 800 600 8 3 4).map Prod.fst),
       .wl_display_destroy w.wl_display_create] ∧
    (main_compositor w m).outcome = .returned EXIT_SUCCESS := by
  obtain ⟨⟨hd, hbk, hre, hco, hxd, hol, hg, ha⟩, hp⟩ := hw
  unfold main_compositor
  simp only [Machine.exec_st, Machine.call_st]
  split_ifs <;> first
    | contradiction
    | (apply main_vnc_skips _ _ _ _ _ hg ha hp hf <;>
        simp_all [Event.isRun, Event.isRelease, Event.isFree, Event.isCleanup,
          Event.isDestroy])

/-- C8: a failure of `wlr_shm_create` or of `fork` is not fatal: when all earlier steps
succeeded, the parent (`fork` returned a nonzero value, negative included) calls
`wl_display_run`, whatever `wlr_shm_create` and `fork` return.  A failure of
`wl_display_add_socket_auto`, `wlr_backend_start` or `wlr_headless_add_output`, all
steps before the socket having succeeded, makes `main` skip `wl_display_run` and run the
cleanup chain (`free`, `rfbScreenCleanup`, `wl_display_destroy`) before returning. -/
theorem main_fatal_and_non_fatal_steps (w : World) :
    (ReachesShm w → w.fork ≠ 0 →
      callsOf Event.isRun (main w).trace = [.wl_display_run w.wl_display_create]) ∧
    (ReachesSocket w →
      (w.wl_display_add_socket_auto = none ∨ w.wlr_backend_start = false ∨
        w.wlr_headless_add_output = NULL) →
      callsOf Event.isRun (main w).trace = [] ∧
      callsOf Event.isRelease (main w).trace =
        [.free w.calloc,
         .rfbScreenCleanup ((w.rfbGetScreen w.argv 800 600 8 3 4).map Prod.fst),
         .wl_display_destroy w.wl_display_create] ∧
      (main w).outcome = .returned EXIT_SUCCESS) := by
  constructor
  · intro hw hf
    have hd : w.wl_display_create ≠ NULL := hw.1.1.1
    unfold main
    simp only [Machine.exec_st, Machine.call_st]
    split_ifs <;> first
      | contradiction
      | (apply main_compositor_runs _ _ _ _ hw hf <;> simp [initial, Event.isRun])
  · intro hw hf
    have hd : w.wl_display_create ≠ NULL := hw.1.1
    unfold main
    simp only [Machine.exec_st, Machine.call_st]
    split_ifs <;> first
      | contradiction
      | (apply main_compositor_skips _ _ _ _ _ hw hf <;>
          simp [initial, Event.isRun, Event.isRelease, Event.isFree, Event.isCleanup,
            Event.isDestroy])

/-- C8 at concrete worlds: SHM and `fork` both fail and the event loop is still
entered; the headless output fails and the event loop is skipped. -/
theorem main_fatal_and_non_fatal_steps_witness :
    (ReachesShm worldNoShmNoFork ∧ worldNoShmNoFork.fork ≠ 0 ∧
      worldNoShmNoFork.wlr_shm_create = NULL ∧ worldNoShmNoFork.fork < 0 ∧
      callsOf Event.isRun (main worldNoShmNoFork).trace = [.wl_display_run (some 1)]) ∧
    (ReachesSocket worldNoOutput ∧ worldNoOutput.wlr_headless_add_output = NULL ∧
      callsOf Event.isRun (main worldNoOutput).trace = [] ∧
      callsOf Event.isRelease (main worldNoOutput).trace =
        [.free (some 9), .rfbScreenCleanup (some 8), .wl_display_destroy (some 1)] ∧
      (main worldNoOutput).outcome = .returned EXIT_SUCCESS) :=
  ⟨⟨by unfold ReachesShm ReachesSocket ReachesInit; decide, by decide, by decide, by decide,
      (main_fatal_and_non_fatal_steps worldNoShmNoFork).1
        (by unfold ReachesShm ReachesSocket ReachesInit; decide) (by decide)⟩,
    ⟨by unfold ReachesSocket ReachesInit; decide, by decide,
      (main_fatal_and_non_fatal_steps worldNoOutput).2
        (by unfold ReachesSocket ReachesInit; decide) (Or.inr (Or.inr (by decide)))⟩⟩

@[simp] theorem allEntries_nil (P : Event × State → Prop) : AllEntries P [] := by
  simp [AllEntries]

@[simp] theorem allEntries_append (P : Event × State → Prop) (t u : List (Event × State)) :
    AllEntries P (t ++ u) ↔ AllEntries P t ∧ AllEntries P u :=
  List.forall_mem_append

@[simp] theorem allEntries_cons (P : Event × State → Prop) (x : Event × State)
    (t : List (Event × State)) : AllEntries P (x :: t) ↔ P x ∧ AllEntries P t :=
  List.forall_mem_cons

/-! ### What the later phases do not call -/

theorem fail_display_all (P : Event × State → Prop)
    (hP : ∀ e s, e.isLate = true → P (e, s)) (m : Machine) (h : AllEntries P m.trace) :
    AllEntries P (fail_display m).trace := by
  simp [fail_display, h, hP, Event.isLate]

theorem fail_vnc_all (P : Event × State → Prop)
    (hP : ∀ e s, e.isLate = true → P (e, s)) (m : Machine) (h : AllEntries P m.trace) :
    AllEntries P (fail_vnc m).trace := by
  unfold fail_vnc
  split_ifs <;> simp [fail_display, h, hP, Event.isLate]

theorem main_launch_all (P : Event × State → Prop)
    (hP : ∀ e s, e.isLate = true → P (e, s)) (w : World) (m : Machine)
    (h : AllEntries P m.trace) : AllEntries P (main_launch w m).trace := by
  unfold main_launch
  simp only [Machine.exec_st, Machine.call_st]
  split_ifs <;> first
    | (apply fail_vnc_all P hP
       simp [h, hP, Event.isLate])
    | simp [h, hP, Event.isLate]

theorem main_wayland_all (P : Event × State → Prop)
    (hP : ∀ e s, e.isLate = true → P (e, s)) (w : World) (m : Machine)
    (h : AllEntries P m.trace) : AllEntries P (main_wayland w m).trace := by
  unfold main_wayland
  simp only [Machine.exec_st, Machine.call_st]
  split_ifs <;> first
    | (apply fail_vnc_all P hP
       simp [h, hP, Event.isLate])
    | (apply main_launch_all P hP
       simp [h, hP, Event.isLate])

theorem fail_vnc_not_late (p : Event → Bool) (hp : ∀ e, e.isLate = true → p e = false)
    (m : Machine) : callsOf p (fail_vnc m).trace = callsOf p m.trace :=
  fail_vnc_callsOf p (fun _ => hp _ rfl) (fun _ => hp _ rfl) (fun _ => hp _ rfl) m

theorem main_launch_not_late (p : Event → Bool) (hp : ∀ e, e.isLate = true → p e = false)
    (w : World) (m : Machine) : callsOf p (main_launch w m).trace = callsOf p m.trace := by
  unfold main_launch
  simp only [Machine.exec_st, Machine.call_st]
  split_ifs <;> simp [fail_vnc_not_late p hp, hp, Event.isLate]

theorem main_wayland_not_late (p : Event → Bool) (hp : ∀ e, e.isLate = true → p e = false)
    (w : World) (m : Machine) : callsOf p (main_wayland w m).trace = callsOf p m.trace := by
  unfold main_wayland
  simp only [Machine.exec_st, Machine.call_st]
  split_ifs <;>
    simp [fail_vnc_not_late p hp, main_launch_not_late p hp, hp, Event.isLate]

theorem isInit_not_late (e : Event) (h : e.isLate = true) : e.isInit = false := by
  cases e <;> simp_all [Event.isLate, Event.isInit]

/-! ### Claim C1 -/

theorem callsOf_eq_nil (p : Event → Bool) (t : List (Event × State)) :
    callsOf p t = [] ↔ ∀ es ∈ t, p es.1 = false := by
  simp [callsOf, List.filter_eq_nil_iff]

theorem initThenFrozen_of_no_init (t : List (Event × State))
    (h0 : callsOf Event.isInit t = []) : InitThenFrozen t := by
  have h := (callsOf_eq_nil _ _).1 h0
  refine ⟨fun es hes hi => ?_, ?_⟩
  · rw [h es hes] at hi
    exact absurd hi (by simp)
  · refine List.Pairwise.imp_of_mem (R := fun _ _ => True) ?_ (List.pairwise_of_forall (fun _ _ => trivial))
    intro a b ha _ _ hi
    rw [h a ha] at hi
    exact absurd hi (by simp)

theorem initThenFrozen_append (t u : List (Event × State)) (ht : InitThenFrozen t)
    (hu : ∀ es ∈ u, es.1.isInit = false ∧ Frozen es) : InitThenFrozen (t ++ u) := by
  refine ⟨fun es hes hi => ?_, ?_⟩
  · rcases List.mem_append.1 hes with h | h
    · exact ht.1 es h hi
    · rw [(hu es h).1] at hi
      exact absurd hi (by simp)
  · rw [List.pairwise_append]
    refine ⟨ht.2, ?_, fun a _ b hb _ => (hu b hb).2⟩
    refine List.Pairwise.imp_of_mem (R := fun _ _ => True) ?_ (List.pairwise_of_forall (fun _ _ => trivial))
    intro a b _ hb _ _
    exact (hu b hb).2

theorem initThenFrozen_snoc (t : List (Event × State)) (x : Event × State)
    (ht : InitThenFrozen t) (hx : x.1.isInit = false ∧ Frozen x) :
    InitThenFrozen (t ++ [x]) :=
  initThenFrozen_append t [x] ht (by simpa using hx)

theorem initThenFrozen_snoc_init (t : List (Event × State)) (x : Event × State)
    (ht0 : callsOf Event.isInit t = []) (hx : ConfiguredAtInit x) :
    InitThenFrozen (t ++ [x]) := by
  have ht := (callsOf_eq_nil _ _).1 ht0
  refine ⟨fun es hes hi => ?_, ?_⟩
  · rcases List.mem_append.1 hes with h | h
    · rw [ht es h] at hi
      exact absurd hi (by simp)
    · rw [List.mem_singleton.1 h]
      exact hx
  · rw [List.pairwise_append]
    refine ⟨(initThenFrozen_of_no_init t ht0).2, List.pairwise_singleton _ _, ?_⟩
    intro a ha b _ hi
    rw [ht a ha] at hi
    exact absurd hi (by simp)

theorem fail_vnc_frozen (m : Machine) (h1 : InitThenFrozen m.trace)
    (h2 : StillConfigured m.st) : InitThenFrozen (fail_vnc m).trace := by
  unfold fail_vnc
  split_ifs <;>
  · simp only [fail_display, Machine.exec_st, Machine.call_st, Machine.exec_trace,
      Machine.call_trace, Machine.finish_trace, List.append_assoc, List.singleton_append]
    apply initThenFrozen_append _ _ h1
    simp [Frozen, Event.isInit, Event.isStore]
    exact h2

theorem main_launch_frozen (w : World) (m : Machine) (h1 : InitThenFrozen m.trace)
    (h2 : StillConfigured m.st) : InitThenFrozen (main_launch w m).trace := by
  unfold main_launch
  simp only [Machine.exec_st, Machine.call_st]
  split_ifs <;>
  · first
      | refine fail_vnc_frozen _ ?_ (fun sc hsc => h2 sc hsc)
      | skip
    simp only [Machine.exec_st, Machine.call_st, Machine.exec_trace, Machine.call_trace,
      Machine.finish_trace, List.append_assoc, List.singleton_append]
    apply initThenFrozen_append _ _ h1
    simp [Frozen, Event.isInit, Event.isStore]
    exact h2

theorem main_wayland_frozen (w : World) (m : Machine) (h1 : InitThenFrozen m.trace)
    (h2 : StillConfigured m.st) : InitThenFrozen (main_wayland w m).trace := by
  unfold main_wayland
  simp only [Machine.exec_st, Machine.call_st]
  split_ifs <;>
  · first
      | refine fail_vnc_frozen _ ?_ (fun sc hsc => h2 sc hsc)
      | refine main_launch_frozen _ _ ?_ (fun sc hsc => h2 sc hsc)
    simp only [Machine.exec_st, Machine.call_st, Machine.exec_trace, Machine.call_trace,
      Machine.finish_trace, List.append_assoc, List.singleton_append]
    apply initThenFrozen_append _ _ h1
    simp [Frozen, Event.isInit, Event.isStore]
    exact h2

theorem main_vnc_frozen (w : World) (m : Machine)
    (h : callsOf Event.isInit m.trace = []) : InitThenFrozen (main_vnc w m).trace := by
  rcases hg : w.rfbGetScreen w.argv 800 600 8 3 4 with _ | ⟨p, sc⟩
  · apply initThenFrozen_of_no_init
    simp [main_vnc, hg, fail_display, Event.isInit, h]
  · rcases ha : w.calloc with _ | a
    · apply initThenFrozen_of_no_init
      simp [main_vnc, hg, ha, fail_display, State.frameBuffer, Event.isInit, h]
    · by_cases hp : w.pthread_create = 0
      · simp only [main_vnc, hg, ha, hp, Machine.exec_st, Machine.call_st, State.frameBuffer,
          Option.map_some', reduceCtorEq, if_false, ne_eq, not_true_eq_false]
        refine main_wayland_frozen _ _ ?_ ?_
        · simp only [Machine.exec_st, Machine.call_st, Machine.exec_trace, Machine.call_trace]
          refine initThenFrozen_snoc _ _ (initThenFrozen_snoc _ _ (initThenFrozen_snoc _ _
            (initThenFrozen_snoc_init _ _ ?_ ?_) ?_) ?_) ?_
          · simp [Event.isInit, h]
          · simp [ConfiguredAtInit, Configured]
          · simp [Frozen, Configured, Event.isInit, Event.isStore]
          · simp [Frozen, Configured, Event.isInit, Event.isStore]
          · simp [Frozen, Configured, Event.isInit, Event.isStore]
        · simp [StillConfigured, Configured]
      · simp only [main_vnc, hg, ha, hp, fail_display, Machine.exec_st, Machine.call_st,
          State.frameBuffer, Machine.exec_trace, Machine.call_trace, Machine.finish_trace,
          Option.map_some', reduceCtorEq, if_false, if_true, ne_eq, not_false_eq_true]
        refine initThenFrozen_snoc _ _ (initThenFrozen_snoc _ _ (initThenFrozen_snoc _ _
          (initThenFrozen_snoc _ _ (initThenFrozen_snoc _ _ (initThenFrozen_snoc _ _
            (initThenFrozen_snoc_init _ _ ?_ ?_) ?_) ?_) ?_) ?_) ?_) ?_
        · simp [Event.isInit, h]
        · simp [ConfiguredAtInit, Configured]
        · simp [Frozen, Configured, Event.isInit, Event.isStore]
        · simp [Frozen, Configured, Event.isInit, Event.isStore]
        · simp [Frozen, Configured, Event.isInit, Event.isStore]
        · simp [Frozen, Configured, Event.isInit, Event.isStore]
        · simp [Frozen, Configured, Event.isInit, Event.isStore]
        · simp [Frozen, Configured, Event.isInit, Event.isStore]

theorem main_compositor_frozen (w : World) (m : Machine)
    (h : callsOf Event.isInit m.trace = []) :
    InitThenFrozen (main_compositor w m).trace := by
  unfold main_compositor
  simp only [Machine.exec_st, Machine.call_st]
  split_ifs <;> first
    | (apply main_vnc_frozen
       simp [Event.isInit, h])
    | (apply initThenFrozen_of_no_init
       simp [fail_display, Event.isInit, h])

theorem main_frozen (w : World) : InitThenFrozen (main w).trace := by
  unfold main
  simp only [Machine.exec_st, Machine.call_st]
  split_ifs <;> first
    | (apply main_compositor_frozen
       simp [Event.isInit])
    | (apply initThenFrozen_of_no_init
       simp [Event.isInit])

theorem main_vnc_reaches_init (w : World) (m : Machine)
    (h : callsOf Event.isInit m.trace = [])
    (hg : w.rfbGetScreen w.argv 800 600 8 3 4 ≠ none) (ha : w.calloc ≠ NULL) :
    callsOf Event.isInit (main_vnc w m).trace =
      [.rfbInitServer ((w.rfbGetScreen w.argv 800 600 8 3 4).map Prod.fst)] := by
  rcases hg' : w.rfbGetScreen w.argv 800 600 8 3 4 with _ | ⟨p, sc⟩
  · exact absurd hg' hg
  · rcases ha' : w.calloc with _ | a
    · exact absurd ha' ha
    · by_cases hp : w.pthread_create = 0 <;>
        simp [main_vnc, hg', ha', hp, fail_display, State.frameBuffer, Event.isInit, h,
          main_wayland_not_late _ isInit_not_late]

theorem main_compositor_reaches_init (w : World) (m : Machine)
    (h : callsOf Event.isInit m.trace = []) (hw : ReachesInit w) :
    callsOf Event.isInit (main_compositor w m).trace =
      [.rfbInitServer ((w.rfbGetScreen w.argv 800 600 8 3 4).map Prod.fst)] := by
  obtain ⟨hd, hbk, hre, hco, hxd, hol, hg, ha⟩ := hw
  unfold main_compositor
  simp only [Machine.exec_st, Machine.call_st]
  split_ifs <;> first
    | contradiction
    | (rw [main_vnc_reaches_init _ _ _ hg ha]
       simp [Event.isInit, h])

theorem main_reaches_init (w : World) (hw : ReachesInit w) :
    callsOf Event.isInit (main w).trace =
      [.rfbInitServer ((w.rfbGetScreen w.argv 800 600 8 3 4).map Prod.fst)] := by
  have hd : w.wl_display_create ≠ NULL := hw.1
  unfold main
  simp only [Machine.exec_st, Machine.call_st]
  split_ifs <;> first
    | contradiction
    | (rw [main_compositor_reaches_init _ _ _ hw]
       simp [Event.isInit])

/-- C1: in every run of `main`, for every command line, the screen handed to
`rfbInitServer` has `redShift = 16`, `greenShift = 8`, `blueShift = 0`,
`redMax = greenMax = blueMax = 255`, `bitsPerPixel = 32`, `depth = 24` and
`alwaysShared = TRUE`; no statement after that call stores through `vnc_screen`, and as
long as the screen is allocated these fields keep their values.  When every step up to
the frame buffer allocation succeeds, `rfbInitServer` is called, exactly once. -/
theorem main_screen_configured (w : World) :
    InitThenFrozen (main w).trace ∧
    (ReachesInit w →
      callsOf Event.isInit (main w).trace =
        [.rfbInitServer ((w.rfbGetScreen w.argv 800 600 8 3 4).map Prod.fst)]) :=
  ⟨main_frozen w, main_reaches_init w⟩

/-- C1 at a concrete world whose `rfbGetScreen` returns a screen with other shifts, not
shared: `rfbInitServer` is called on screen 8. -/
theorem main_screen_configured_witness :
    ReachesInit worldOk ∧
      callsOf Event.isInit (main worldOk).trace = [.rfbInitServer (some 8)] :=
  ⟨by unfold ReachesInit; decide,
    (main_screen_configured worldOk).2 (by unfold ReachesInit; decide)⟩

/-! ### Claim C2 -/

theorem portIs5901_late (e : Event) (s : State) (h : e.isLate = true) : PortIs5901 (e, s) := by
  cases e <;> simp_all [Event.isLate, PortIs5901, Event.isInit, Event.isListening]

theorem isListening_not_late (e : Event) (h : e.isLate = true) : e.isListening = false := by
  cases e <;> simp_all [Event.isLate, Event.isListening]

theorem main_vnc_port (w : World) (m : Machine) (h : AllEntries PortIs5901 m.trace) :
    AllEntries PortIs5901 (main_vnc w m).trace := by
  rcases hg : w.rfbGetScreen w.argv 800 600 8 3 4 with _ | ⟨p, sc⟩
  · simp [main_vnc, hg, fail_display, h, PortIs5901, Event.isInit, Event.isListening]
  · rcases ha : w.calloc with _ | a
    · simp [main_vnc, hg, ha, fail_display, State.frameBuffer, h, PortIs5901, Event.isInit,
        Event.isListening]
    · by_cases hp : w.pthread_create = 0
      · simp only [main_vnc, hg, ha, hp, Machine.exec_st, Machine.call_st, State.frameBuffer,
          Option.map_some', reduceCtorEq, if_false, ne_eq, not_true_eq_false]
        apply main_wayland_all _ portIs5901_late
        simp [h, PortIs5901, Event.isInit, Event.isListening, State.port]
      · simp [main_vnc, hg, ha, hp, fail_display, State.frameBuffer, h, PortIs5901,
          Event.isInit, Event.isListening, State.port]

theorem main_compositor_port (w : World) (m : Machine)
    (h : AllEntries PortIs5901 m.trace) :
    AllEntries PortIs5901 (main_compositor w m).trace := by
  unfold main_compositor
  simp only [Machine.exec_st, Machine.call_st]
  split_ifs <;> first
    | (apply main_vnc_port
       simp [h, PortIs5901, Event.isInit, Event.isListening])
    | simp [fail_display, h, PortIs5901, Event.isInit, Event.isListening]

theorem main_vnc_listening (w : World) (m : Machine)
    (h : callsOf Event.isListening m.trace = [])
    (hg : w.rfbGetScreen w.argv 800 600 8 3 4 ≠ none) (ha : w.calloc ≠ NULL) :
    callsOf Event.isListening (main_vnc w m).trace =
      [.fprintf_stderr "VNC server listening on port %d\n" [5901]] := by
  rcases hg' : w.rfbGetScreen w.argv 800 600 8 3 4 with _ | ⟨p, sc⟩
  · exact absurd hg' hg
  · rcases ha' : w.calloc with _ | a
    · exact absurd ha' ha
    · by_cases hp : w.pthread_create = 0 <;>
        simp [main_vnc, hg', ha', hp, fail_display, State.frameBuffer, State.port,
          Event.isListening, h, main_wayland_not_late _ isListening_not_late]

theorem main_compositor_listening (w : World) (m : Machine)
    (h : callsOf Event.isListening m.trace = []) (hw : ReachesInit w) :
    callsOf Event.isListening (main_compositor w m).trace =
      [.fprintf_stderr "VNC server listening on port %d\n" [5901]] := by
  obtain ⟨hd, hbk, hre, hco, hxd, hol, hg, ha⟩ := hw
  unfold main_compositor
  simp only [Machine.exec_st, Machine.call_st]
  split_ifs <;> first
    | contradiction
    | (rw [main_vnc_listening _ _ _ hg ha]
       simp [Event.isListening, h])

/-- C2: for every command line and whatever screen (with whatever port)
`rfbGetScreen` builds from it, the port of the screen at the call of `rfbInitServer` is
5901, and the port printed in the "VNC server listening on port" message is that
port, 5901.  When every step up to the frame buffer allocation succeeds, the call is
made and the message is printed, exactly once. -/
theorem main_port_5901 (w : World) :
    AllEntries PortIs5901 (main w).trace ∧
    (ReachesInit w →
      callsOf Event.isInit (main w).trace =
        [.rfbInitServer ((w.rfbGetScreen w.argv 800 600 8 3 4).map Prod.fst)] ∧
      callsOf Event.isListening (main w).trace =
        [.fprintf_stderr "VNC server listening on port %d\n" [5901]]) := by
  refine ⟨?_, fun hw => ⟨main_reaches_init w hw, ?_⟩⟩
  · unfold main
    simp only [Machine.exec_st, Machine.call_st]
    split_ifs <;> first
      | (apply main_compositor_port
         simp [PortIs5901, Event.isInit, Event.isListening])
      | simp [PortIs5901, Event.isInit, Event.isListening]
  · have hd : w.wl_display_create ≠ NULL := hw.1
    unfold main
    simp only [Machine.exec_st, Machine.call_st]
    split_ifs <;> first
      | contradiction
      | (rw [main_compositor_listening _ _ _ hw]
         simp [Event.isListening])

/-- C2 at a concrete world whose command line asks for port 5999 and whose
`rfbGetScreen` returns a screen with that port: 5901 is printed. -/
theorem main_port_5901_witness :
    ReachesInit worldOk ∧
      callsOf Event.isListening (main worldOk).trace =
        [.fprintf_stderr "VNC server listening on port %d\n" [5901]] :=
  ⟨by unfold ReachesInit; decide,
    ((main_port_5901 worldOk).2 (by unfold ReachesInit; decide)).2⟩

/-! ### Claim C3 -/

theorem callocBlock_addr (a n size : Nat) : (callocBlock a n size).addr = a := rfl

theorem zeroFilled_callocBlock (a : Nat) :
    ZeroFilled (callocBlock a 1 (toSizeT (mulInt (mulInt 800 600) 4))) := by
  have h : 1 * toSizeT (mulInt (mulInt 800 600) 4) = 800 * 600 * 4 := by decide
  refine ⟨?_, ?_⟩
  · show (List.replicate _ 0).length = _
    rw [List.length_replicate, h]
  · intro x hx
    exact List.eq_of_mem_replicate hx

theorem freeBlock_zero (p : Ptr) (blk : Option Block)
    (h : ∀ b, blk = some b → ZeroFilled b) : ∀ b, freeBlock p blk = some b → ZeroFilled b := by
  intro b hb
  rcases p with _ | a <;> rcases blk with _ | c
  · simp [freeBlock] at hb
  · exact h b hb
  · simp [freeBlock] at hb
  · simp only [freeBlock] at hb
    split_ifs at hb
    exact h b hb

theorem frameBufferZero_late (e : Event) (s : State) (h : e.isLate = true)
    (hs : BlockZero s) : FrameBufferZero (e, s) :=
  ⟨hs, fun hi => by rw [isInit_not_late e h] at hi; exact absurd hi (by simp)⟩

theorem fail_vnc_zero (m : Machine) (h1 : AllEntries FrameBufferZero m.trace)
    (h2 : BlockZero m.st) : AllEntries FrameBufferZero (fail_vnc m).trace := by
  have h3 := freeBlock_zero m.st.frameBuffer m.st.block h2
  unfold fail_vnc
  split_ifs <;>
    simp [fail_display, h1, FrameBufferZero, Event.isInit]
  · exact h3
  · exact h2

theorem main_launch_zero (w : World) (m : Machine)
    (h1 : AllEntries FrameBufferZero m.trace) (h2 : BlockZero m.st) :
    AllEntries FrameBufferZero (main_launch w m).trace := by
  unfold main_launch
  simp only [Machine.exec_st, Machine.call_st]
  split_ifs <;>
  · first
      | refine fail_vnc_zero _ ?_ (fun b hb => h2 b hb)
      | skip
    simp [h1, FrameBufferZero, Event.isInit]
    exact h2

theorem main_wayland_zero (w : World) (m : Machine)
    (h1 : AllEntries FrameBufferZero m.trace) (h2 : BlockZero m.st) :
    AllEntries FrameBufferZero (main_wayland w m).trace := by
  unfold main_wayland
  simp only [Machine.exec_st, Machine.call_st]
  split_ifs <;>
  · first
      | refine fail_vnc_zero _ ?_ (fun b hb => h2 b hb)
      | refine main_launch_zero _ _ ?_ (fun b hb => h2 b hb)
    simp [h1, FrameBufferZero, Event.isInit]
    exact h2

theorem main_vnc_zero (w : World) (m : Machine)
    (h1 : AllEntries FrameBufferZero m.trace) (h2 : m.st.block = none) :
    AllEntries FrameBufferZero (main_vnc w m).trace := by
  rcases hg : w.rfbGetScreen w.argv 800 600 8 3 4 with _ | ⟨p, sc⟩
  · simp [main_vnc, hg, fail_display, h1, h2, FrameBufferZero, Event.isInit]
  · rcases ha : w.calloc with _ | a
    · simp [main_vnc, hg, ha, fail_display, State.frameBuffer, h1, h2, FrameBufferZero,
        Event.isInit]
    · by_cases hp : w.pthread_create = 0
      · simp only [main_vnc, hg, ha, hp, Machine.exec_st, Machine.call_st, State.frameBuffer,
          Option.map_some', reduceCtorEq, if_false, ne_eq, not_true_eq_false]
        refine main_wayland_zero _ _ ?_ ?_
        · simp [h1, h2, FrameBufferZero, Event.isInit, zeroFilled_callocBlock,
            callocBlock_addr]
        · simp [BlockZero, zeroFilled_callocBlock]
      · simp [main_vnc, hg, ha, hp, fail_display, State.frameBuffer, h1, h2,
          FrameBufferZero, Event.isInit, zeroFilled_callocBlock, callocBlock_addr]
        exact freeBlock_zero _ _ (by simp [zeroFilled_callocBlock])

theorem main_compositor_zero (w : World) (m : Machine)
    (h1 : AllEntries FrameBufferZero m.trace) (h2 : m.st.block = none) :
    AllEntries FrameBufferZero (main_compositor w m).trace := by
  unfold main_compositor
  simp only [Machine.exec_st, Machine.call_st]
  split_ifs <;> first
    | (apply main_vnc_zero
       · simp [h1, h2, FrameBufferZero, Event.isInit]
       · exact h2)
    | simp [fail_display, h1, h2, FrameBufferZero, Event.isInit]

/-- C3: in every run of `main`, at the call of `rfbInitServer` the frame buffer is
allocated, `vnc_screen->frameBuffer` points to it and it consists of 800 x 600 x 4 zero
bytes; and right after every statement of `main`, the cleanup included, the block is
either gone or still consists only of zero bytes, so that no statement writes to
it.  When the frame buffer allocation and all steps before it succeed,
`rfbInitServer` is called. -/
theorem main_frame_buffer_zero (w : World) :
    AllEntries FrameBufferZero (main w).trace ∧
    (ReachesInit w →
      callsOf Event.isInit (main w).trace =
        [.rfbInitServer ((w.rfbGetScreen w.argv 800 600 8 3 4).map Prod.fst)]) := by
  refine ⟨?_, main_reaches_init w⟩
  unfold main
  simp only [Machine.exec_st, Machine.call_st]
  split_ifs <;> first
    | (apply main_compositor_zero
       · simp [FrameBufferZero, Event.isInit, initial]
       · rfl)
    | simp [FrameBufferZero, Event.isInit, initial]

/-- C3 at a concrete world: `rfbInitServer` is called, once, on screen 8. -/
theorem main_frame_buffer_zero_witness :
    ReachesInit worldOk ∧
      callsOf Event.isInit (main worldOk).trace = [.rfbInitServer (some 8)] :=
  ⟨by unfold ReachesInit; decide,
    (main_frame_buffer_zero worldOk).2 (by unfold ReachesInit; decide)⟩

/-! ### Claim C4 -/

theorem fbsize_eq : toSizeT (mulInt (mulInt 800 600) 4) = 1920000 := by decide

theorem callocBlock_length (a n size : Nat) :
    (callocBlock a n size).bytes.length = n * size := by
  simp [callocBlock]

theorem isCalloc_not_late (e : Event) (h : e.isLate = true) : e.isCalloc = false := by
  cases e <;> simp_all [Event.isLate, Event.isCalloc]

theorem fail_vnc_geometry (m : Machine) (h : AllEntries GeometryAt m.trace) :
    AllEntries GeometryAt (fail_vnc m).trace := by
  unfold fail_vnc
  split_ifs <;> simp [fail_display, h, GeometryAt]

theorem main_launch_geometry (w : World) (m : Machine) (h : AllEntries GeometryAt m.trace) :
    AllEntries GeometryAt (main_launch w m).trace := by
  unfold main_launch
  simp only [Machine.exec_st, Machine.call_st]
  split_ifs <;> first
    | (apply fail_vnc_geometry
       simp [h, GeometryAt])
    | simp [h, GeometryAt]

theorem main_wayland_geometry (w : World) (m : Machine) (h : AllEntries GeometryAt m.trace) :
    AllEntries GeometryAt (main_wayland w m).trace := by
  unfold main_wayland
  simp only [Machine.exec_st, Machine.call_st]
  split_ifs <;> first
    | (apply fail_vnc_geometry
       simp [h, GeometryAt])
    | (apply main_launch_geometry
       simp [h, GeometryAt])

theorem main_vnc_geometry (w : World) (m : Machine) (h : AllEntries GeometryAt m.trace) :
    AllEntries GeometryAt (main_vnc w m).trace := by
  rcases hg : w.rfbGetScreen w.argv 800 600 8 3 4 with _ | ⟨p, sc⟩
  · simp [main_vnc, hg, fail_display, h, GeometryAt]
    intros
    omega
  · rcases ha : w.calloc with _ | a
    · simp [main_vnc, hg, ha, fail_display, State.frameBuffer, h, GeometryAt, fbsize_eq]
      intros
      omega
    · by_cases hp : w.pthread_create = 0
      · simp only [main_vnc, hg, ha, hp, Machine.exec_st, Machine.call_st, State.frameBuffer,
          Option.map_some', reduceCtorEq, if_false, ne_eq, not_true_eq_false]
        apply main_wayland_geometry
        simp [h, GeometryAt, fbsize_eq, callocBlock_length]
        intros
        omega
      · simp [main_vnc, hg, ha, hp, fail_display, State.frameBuffer, h, GeometryAt,
          fbsize_eq, callocBlock_length]
        intros
        omega

theorem main_compositor_geometry (w : World) (m : Machine)
    (h : AllEntries GeometryAt m.trace) :
    AllEntries GeometryAt (main_compositor w m).trace := by
  unfold main_compositor
  simp only [Machine.exec_st, Machine.call_st]
  split_ifs <;> first
    | (apply main_vnc_geometry
       simp [h, GeometryAt])
    | simp [fail_display, h, GeometryAt]

theorem main_vnc_calloc (w : World) (m : Machine)
    (h : callsOf Event.isCalloc m.trace = [])
    (hg : w.rfbGetScreen w.argv 800 600 8 3 4 ≠ none) :
    callsOf Event.isCalloc (main_vnc w m).trace = [.calloc 1 1920000] := by
  rcases hg' : w.rfbGetScreen w.argv 800 600 8 3 4 with _ | ⟨p, sc⟩
  · exact absurd hg' hg
  · rcases ha' : w.calloc with _ | a
    · simp [main_vnc, hg', ha', fail_display, State.frameBuffer, Event.isCalloc, h, fbsize_eq]
    · by_cases hp : w.pthread_create = 0 <;>
        simp [main_vnc, hg', ha', hp, fail_display, State.frameBuffer, Event.isCalloc, h,
          fbsize_eq, main_wayland_not_late _ isCalloc_not_late]

theorem main_compositor_calloc (w : World) (m : Machine)
    (h : callsOf Event.isCalloc m.trace = []) (hw : ReachesInit w) :
    callsOf Event.isCalloc (main_compositor w m).trace = [.calloc 1 1920000] := by
  obtain ⟨hd, hbk, hre, hco, hxd, hol, hg, ha⟩ := hw
  unfold main_compositor
  simp only [Machine.exec_st, Machine.call_st]
  split_ifs <;> first
    | contradiction
    | (rw [main_vnc_calloc _ _ _ hg]
       simp [Event.isCalloc, h])

/-- C4: in every run of `main`, the frame buffer asked from `calloc` has exactly
width x height x bytes-per-pixel bytes of the screen asked from `rfbGetScreen`,
800 x 600 x 4 = 1,920,000 = 3200 x 600, and the block returned has that length; the
products 800 * 600 and 800 * 600 * 4 computed in `int` do not overflow; and the width
and height passed to `wlr_headless_add_output` are the same 800 and 600.  When every
step up to the allocation succeeds, `calloc(1, 1920000)` is called, once. -/
theorem main_frame_buffer_size (w : World) :
    AllEntries GeometryAt (main w).trace ∧
    (mulInt 800 600 = 800 * 600 ∧ mulInt (mulInt 800 600) 4 = 800 * 600 * 4 ∧
      INT_MIN ≤ 800 * 600 * 4 ∧ 800 * 600 * 4 ≤ INT_MAX ∧
      toSizeT (mulInt (mulInt 800 600) 4) = 1920000 ∧ 1920000 = (800 * 4) * 600) ∧
    (ReachesInit w → callsOf Event.isCalloc (main w).trace = [.calloc 1 1920000]) := by
  refine ⟨?_, by decide, fun hw => ?_⟩
  · unfold main
    simp only [Machine.exec_st, Machine.call_st]
    split_ifs <;> first
      | (apply main_compositor_geometry
         simp [GeometryAt])
      | simp [GeometryAt]
  · have hd : w.wl_display_create ≠ NULL := hw.1
    unfold main
    simp only [Machine.exec_st, Machine.call_st]
    split_ifs <;> first
      | contradiction
      | (rw [main_compositor_calloc _ _ _ hw]
         simp [Event.isCalloc])

/-- C4 at a concrete world: `calloc(1, 1920000)` is called. -/
theorem main_frame_buffer_size_witness :
    ReachesInit worldOk ∧
      callsOf Event.isCalloc (main worldOk).trace = [.calloc 1 1920000] :=
  ⟨by unfold ReachesInit; decide,
    (main_frame_buffer_size worldOk).2.2 (by unfold ReachesInit; decide)⟩

/-! ### Claim C5 -/

theorem shiftLeft_and_eq_zero (a x k : Nat) (hx : x < 2 ^ k) : (a <<< k) &&& x = 0 := by
  apply Nat.eq_of_testBit_eq
  intro i
  simp only [Nat.testBit_and, Nat.testBit_shiftLeft, Nat.zero_testBit]
  by_cases hik : k ≤ i
  · have h : x.testBit i = false :=
      Nat.testBit_lt_two_pow (lt_of_lt_of_le hx (Nat.pow_le_pow_right (by norm_num) hik))
    simp [h]
  · simp [hik]

theorem pack_16_8_0 (r g b : Nat) (hg : g ≤ 255) (hb : b ≤ 255) :
    (r <<< 16) ||| (g <<< 8) ||| (b <<< 0) = r * 65536 + g * 256 + b := by
  have h1 := Nat.mul_add_lt_is_or (i := 16) (b := g * 256) (by omega) r
  have h2 := Nat.mul_add_lt_is_or (i := 8) (b := b) (by omega) (r * 256 + g)
  have e1 : r <<< 16 = 2 ^ 16 * r := by rw [Nat.shiftLeft_eq, Nat.mul_comm]
  have e2 : g <<< 8 = g * 256 := by rw [Nat.shiftLeft_eq]
  have e3 : b <<< 0 = b := rfl
  have e4 : 2 ^ 16 * r + g * 256 = 2 ^ 8 * (r * 256 + g) := by omega
  rw [e1, e2, e3, ← h1, e4, ← h2]
  omega

theorem exactPacking_of_configured (f : rfbPixelFormat)
    (h1 : f.redShift = 16) (h2 : f.greenShift = 8) (h3 : f.blueShift = 0)
    (h4 : f.redMax = 255) (h5 : f.greenMax = 255) (h6 : f.blueMax = 255) :
    ExactPacking f := by
  intro r g b hr hg hb
  have hp := pack_16_8_0 r g b hg hb
  have m255 : ∀ x : Nat, x &&& 255 = x % 2 ^ 8 := fun x => Nat.and_pow_two_sub_one_eq_mod x 8
  have hg8 : g <<< 8 = g * 256 := by rw [Nat.shiftLeft_eq]
  have hb0 : b <<< 0 = b := rfl
  simp only [packPixel, redOf, greenOf, blueOf, h1, h2, h3, h4, h5, h6, hp,
    Nat.shiftRight_eq_div_pow, m255]
  refine ⟨shiftLeft_and_eq_zero r _ 16 (by omega), shiftLeft_and_eq_zero r _ 16 (by omega),
    shiftLeft_and_eq_zero g _ 8 (by omega), ?_, ?_, ?_, ?_⟩ <;> omega

theorem injectivePacking_of_exact (f : rfbPixelFormat) (h : ExactPacking f) :
    InjectivePacking f := by
  intro r g b r' g' b' hr hg hb hr' hg' hb' he
  obtain ⟨_, _, _, _, e1, e2, e3⟩ := h r g b hr hg hb
  obtain ⟨_, _, _, _, e1', e2', e3'⟩ := h r' g' b' hr' hg' hb'
  rw [he] at e1 e2 e3
  exact ⟨e1.symm.trans e1', e2.symm.trans e2', e3.symm.trans e3'⟩

/-- C5: under the shifts and maxima `main` has configured when it calls
`rfbInitServer` (red 16/255, green 8/255, blue 0/255), packing a pixel as
`(r << redShift) | (g << greenShift) | (b << blueShift)` maps RGB (255, 0, 0) to
`0x00FF0000`; for all `r`, `g`, `b` in 0..255 the three channel fields occupy pairwise
disjoint bits inside the low 24 bits, the configured depth, each channel is recovered
by shifting and masking with its maximum, and the packing is injective. -/
theorem main_format_packing (w : World) (es : Event × State) (sc : rfbScreenInfo)
    (hes : es ∈ (main w).trace) (hi : es.1.isInit = true) (hsc : es.2.screen = some sc) :
    packPixel sc.serverFormat 255 0 0 = 0x00FF0000 ∧ sc.depth = 24 ∧
    ExactPacking sc.serverFormat ∧ InjectivePacking sc.serverFormat := by
  obtain ⟨_, sc', hsc', h1, h2, h3, h4, h5, h6, _, h8, _⟩ := (main_frozen w).1 es hes hi
  rw [hsc] at hsc'
  cases hsc'
  have hx := exactPacking_of_configured sc.serverFormat h1 h2 h3 h4 h5 h6
  refine ⟨?_, h8, hx, injectivePacking_of_exact _ hx⟩
  simp only [packPixel, h1, h2, h3]
  decide

/-- C5 at a concrete world: the screen handed to `rfbInitServer` in `worldOk`, whose
`rfbGetScreen` had proposed the shifts 0/8/16. -/
theorem main_format_packing_witness :
    (firstInit worldOk).map (fun es => es.2.screen) = some (some worldOkScreen) ∧
    packPixel worldOkScreen.serverFormat 255 0 0 = 0x00FF0000 ∧
    worldOkScreen.depth = 24 ∧
    ExactPacking worldOkScreen.serverFormat ∧
    InjectivePacking worldOkScreen.serverFormat := by
  have h0 : (firstInit worldOk).map (fun es => es.2.screen) = some (some worldOkScreen) := by
    decide
  rcases he : firstInit worldOk with _ | es
  · rw [he] at h0
    exact absurd h0 (by simp)
  · have hsc : es.2.screen = some worldOkScreen := by
      rw [he] at h0
      simpa using h0
    have hi : es.1.isInit = true := by
      have h := List.find?_some (p := fun es : Event × State => es.1.isInit) he
      simpa using h
    exact ⟨by simp [hsc],
      main_format_packing worldOk es worldOkScreen (List.mem_of_find?_eq_some he) hi hsc⟩

/-! ### Claim C10 -/

theorem lookup_filter_ne (environ : List (String × String)) (n k : String) (h : k ≠ n) :
    (environ.filter (fun kv => kv.1 != n)).lookup k = environ.lookup k := by
  induction environ with
  | nil => rfl
  | cons kv rest ih =>
    obtain ⟨a, b⟩ := kv
    by_cases ha : a = n
    · subst ha
      have hka : (k == a) = false := by simpa using h
      simp [List.filter_cons, List.lookup_cons, hka, ih]
    · have hne : (a != n) = true := by simpa using ha
      simp only [List.filter_cons, hne, if_true, List.lookup_cons, ih]

theorem getenv_setenv_same (environ : List (String × String)) (n v : String) :
    getenv (setenv environ n (some v) 1) n = some v := by
  simp [getenv, setenv, List.lookup_cons]

theorem getenv_setenv_other (environ : List (String × String)) (n k v : String)
    (h : k ≠ n) : getenv (setenv environ n (some v) 1) k = getenv environ k := by
  have hkn : (k == n) = false := by simpa using h
  simp [getenv, setenv, List.lookup_cons, hkn, lookup_filter_ne environ n k h]

theorem xdgSince_append (v : String) (t u : List (Event × State)) (ht : XdgSince v t)
    (hu : AllEntries (XdgIs v) u) : XdgSince v (t ++ u) := by
  refine ⟨?_, ?_⟩
  · rw [allEntries_append]
    exact ⟨ht.1, fun es hes _ => hu es hes⟩
  · rw [List.pairwise_append]
    refine ⟨ht.2, ?_, fun a _ b hb _ => hu b hb⟩
    refine List.Pairwise.imp_of_mem (R := fun _ _ => True) ?_
      (List.pairwise_of_forall (fun _ _ => trivial))
    intro a b _ hb _ _
    exact hu b hb

theorem allXdg_append (v : String) (t u : List (Event × State))
    (ht : AllEntries (XdgIs v) t) (hu : AllEntries (XdgIs v) u) :
    AllEntries (XdgIs v) (t ++ u) :=
  (allEntries_append _ _ _).2 ⟨ht, hu⟩

theorem fail_vnc_env (v : String) (G : List (Event × State) → Prop)
    (hG : ∀ t u, G t → AllEntries (XdgIs v) u → G (t ++ u))
    (m : Machine) (h1 : G m.trace) (h2 : EnvInv v m.st) : G (fail_vnc m).trace := by
  unfold fail_vnc
  split_ifs <;>
  · simp only [fail_display, Machine.exec_st, Machine.call_st, Machine.exec_trace,
      Machine.call_trace, Machine.finish_trace, List.append_assoc, List.singleton_append]
    apply hG _ _ h1
    simp [XdgIs, h2.1]

theorem getenv_setenv_any_other (environ : List (String × String)) (n k : String)
    (value : Option String) (h : k ≠ n) :
    getenv (setenv environ n value 1) k = getenv environ k := by
  rcases value with _ | v
  · rfl
  · exact getenv_setenv_other environ n k v h

theorem xdg_after_wayland (environ : List (String × String)) (value : Option String) :
    getenv (setenv environ "WAYLAND_DISPLAY" value 1) "XDG_RUNTIME_DIR" =
      getenv environ "XDG_RUNTIME_DIR" :=
  getenv_setenv_any_other environ _ _ value (by decide)

theorem wayland_after_xdg (environ : List (String × String)) (value : Option String) :
    getenv (setenv environ "XDG_RUNTIME_DIR" value 1) "WAYLAND_DISPLAY" =
      getenv environ "WAYLAND_DISPLAY" :=
  getenv_setenv_any_other environ _ _ value (by decide)

theorem main_launch_env (v : String) (G : List (Event × State) → Prop)
    (hG : ∀ t u, G t → AllEntries (XdgIs v) u → G (t ++ u))
    (w : World) (m : Machine) (h1 : G m.trace) (h2 : EnvInv v m.st) :
    G (main_launch w m).trace := by
  obtain ⟨h3, h4⟩ := h2
  unfold main_launch
  simp only [Machine.exec_st, Machine.call_st]
  split_ifs <;>
  · first
      | refine fail_vnc_env v G hG _ ?_ ⟨h3, h4⟩
      | skip
    simp only [Machine.exec_st, Machine.call_st, Machine.exec_trace, Machine.call_trace,
      Machine.finish_trace, List.append_assoc, List.singleton_append]
    apply hG _ _ h1
    simp [XdgIs, h3, h4, xdg_after_wayland, getenv_setenv_same]

theorem main_wayland_env (v : String) (G : List (Event × State) → Prop)
    (hG : ∀ t u, G t → AllEntries (XdgIs v) u → G (t ++ u))
    (w : World) (m : Machine) (h1 : G m.trace) (h2 : EnvInv v m.st) :
    G (main_wayland w m).trace := by
  obtain ⟨h3, h4⟩ := h2
  unfold main_wayland
  simp only [Machine.exec_st, Machine.call_st]
  split_ifs <;>
  · first
      | refine fail_vnc_env v G hG _ ?_ ?_
      | refine main_launch_env v G hG _ _ ?_ ?_
    · simp only [Machine.exec_st, Machine.call_st, Machine.exec_trace, Machine.call_trace,
        Machine.finish_trace, List.append_assoc, List.singleton_append]
      apply hG _ _ h1
      simp [XdgIs, h3, h4, xdg_after_wayland, getenv_setenv_same]
    · simp [EnvInv, h3, h4, xdg_after_wayland]

theorem main_vnc_env (v : String) (G : List (Event × State) → Prop)
    (hG : ∀ t u, G t → AllEntries (XdgIs v) u → G (t ++ u))
    (w : World) (m : Machine) (h1 : G m.trace) (h2 : EnvInv v m.st) :
    G (main_vnc w m).trace := by
  obtain ⟨h3, h4⟩ := h2
  rcases hg : w.rfbGetScreen w.argv 800 600 8 3 4 with _ | ⟨p, sc⟩
  · simp only [main_vnc, hg, fail_display, Machine.exec_st, Machine.call_st,
      Machine.exec_trace, Machine.call_trace, Machine.finish_trace, Option.map_none',
      if_true, List.append_assoc, List.singleton_append]
    apply hG _ _ h1
    simp [XdgIs, h3]
  · rcases ha : w.calloc with _ | a
    · simp only [main_vnc, hg, ha, fail_display, Machine.exec_st, Machine.call_st,
        State.frameBuffer, Machine.exec_trace, Machine.call_trace, Machine.finish_trace,
        Option.map_some', Option.map_none', reduceCtorEq, if_false, if_true,
        List.append_assoc, List.singleton_append]
      apply hG _ _ h1
      simp [XdgIs, h3]
    · by_cases hp : w.pthread_create = 0
      · simp only [main_vnc, hg, ha, hp, Machine.exec_st, Machine.call_st, State.frameBuffer,
          Option.map_some', reduceCtorEq, if_false, ne_eq, not_true_eq_false]
        refine main_wayland_env v G hG _ _ ?_ ?_
        · simp only [Machine.exec_st, Machine.call_st, Machine.exec_trace,
            Machine.call_trace, List.append_assoc, List.singleton_append]
          apply hG _ _ h1
          simp [XdgIs, h3]
        · simp [EnvInv, h3, h4]
      · simp only [main_vnc, hg, ha, hp, fail_display, Machine.exec_st, Machine.call_st,
          State.frameBuffer, Machine.exec_trace, Machine.call_trace, Machine.finish_trace,
          Option.map_some', reduceCtorEq, if_false, if_true, ne_eq, not_false_eq_true,
          List.append_assoc, List.singleton_append]
        apply hG _ _ h1
        simp [XdgIs, h3]

theorem main_compositor_env (v : String) (G : List (Event × State) → Prop)
    (hG : ∀ t u, G t → AllEntries (XdgIs v) u → G (t ++ u))
    (w : World) (m : Machine) (h1 : G m.trace) (h2 : EnvInv v m.st) :
    G (main_compositor w m).trace := by
  obtain ⟨h3, h4⟩ := h2
  unfold main_compositor
  simp only [Machine.exec_st, Machine.call_st]
  split_ifs <;>
  · first
      | refine main_vnc_env v G hG _ _ ?_ ⟨h3, h4⟩
      | skip
    simp only [fail_display, Machine.exec_st, Machine.call_st, Machine.exec_trace,
      Machine.call_trace, Machine.finish_trace, List.append_assoc, List.singleton_append]
    apply hG _ _ h1
    simp [XdgIs, h3, h4]

theorem fail_vnc_launch (w : World) (v : String) (m : Machine)
    (h : AllEntries (LaunchEnv w v) m.trace) : LaunchesWith w v (fail_vnc m) := by
  unfold fail_vnc
  split_ifs <;>
    simp [LaunchesWith, fail_display, h, LaunchEnv, Event.isExecl]

theorem main_launch_launch (w : World) (v : String) (m : Machine)
    (h1 : AllEntries (LaunchEnv w v) m.trace) (h2 : EnvInv v m.st)
    (h3 : getenv m.st.environ "WAYLAND_DISPLAY" = w.wl_display_add_socket_auto)
    (h4 : m.st.socket = w.wl_display_add_socket_auto)
    (h5 : w.wl_display_add_socket_auto ≠ none) :
    LaunchesWith w v (main_launch w m) := by
  obtain ⟨h6, h7⟩ := h2
  obtain ⟨name, hn⟩ := Option.ne_none_iff_exists'.1 h5
  rw [hn] at h3 h4
  unfold main_launch
  simp only [Machine.exec_st, Machine.call_st]
  split_ifs <;> first
    | (have hl := fail_vnc_launch w v
       simp only [LaunchesWith, hn] at hl ⊢
       apply hl
       simp [h1, LaunchEnv, Event.isExecl, h3, h4, h6, h7, hn])
    | simp [LaunchesWith, h1, LaunchEnv, Event.isExecl, h3, h4, h6, h7, hn,
        xdg_after_wayland, wayland_after_xdg, getenv_setenv_same]

theorem main_wayland_launch (w : World) (v : String) (m : Machine)
    (h1 : AllEntries (LaunchEnv w v) m.trace) (h2 : EnvInv v m.st) :
    LaunchesWith w v (main_wayland w m) := by
  obtain ⟨h6, h7⟩ := h2
  unfold main_wayland
  simp only [Machine.exec_st, Machine.call_st]
  split_ifs with hs hb ho <;> first
    | (apply fail_vnc_launch
       simp [h1, LaunchEnv, Event.isExecl])
    | (obtain ⟨name, hn⟩ := Option.ne_none_iff_exists'.1 hs
       apply main_launch_launch
       · simp [h1, LaunchEnv, Event.isExecl]
       · simp [EnvInv, h6, h7, xdg_after_wayland]
       · simp [hn, getenv_setenv_same]
       · rfl
       · exact hs)

theorem main_vnc_launch (w : World) (v : String) (m : Machine)
    (h1 : AllEntries (LaunchEnv w v) m.trace) (h2 : EnvInv v m.st) :
    LaunchesWith w v (main_vnc w m) := by
  obtain ⟨h6, h7⟩ := h2
  rcases hg : w.rfbGetScreen w.argv 800 600 8 3 4 with _ | ⟨p, sc⟩
  · simp [main_vnc, hg, fail_display, LaunchesWith, h1, LaunchEnv, Event.isExecl]
  · rcases ha : w.calloc with _ | a
    · simp [main_vnc, hg, ha, fail_display, State.frameBuffer, LaunchesWith, h1, LaunchEnv,
        Event.isExecl]
    · by_cases hp : w.pthread_create = 0
      · simp only [main_vnc, hg, ha, hp, Machine.exec_st, Machine.call_st, State.frameBuffer,
          Option.map_some', reduceCtorEq, if_false, ne_eq, not_true_eq_false]
        apply main_wayland_launch
        · simp [h1, LaunchEnv, Event.isExecl]
        · simp [EnvInv, h6, h7]
      · simp [main_vnc, hg, ha, hp, fail_display, State.frameBuffer, LaunchesWith, h1,
          LaunchEnv, Event.isExecl]

theorem main_compositor_launch (w : World) (v : String) (m : Machine)
    (h1 : AllEntries (LaunchEnv w v) m.trace) (h2 : EnvInv v m.st) :
    LaunchesWith w v (main_compositor w m) := by
  obtain ⟨h6, h7⟩ := h2
  unfold main_compositor
  simp only [Machine.exec_st, Machine.call_st]
  split_ifs <;> first
    | (apply main_vnc_launch
       · simp [h1, LaunchEnv, Event.isExecl]
       · simp [EnvInv, h6, h7])
    | simp [fail_display, LaunchesWith, h1, LaunchEnv, Event.isExecl]

theorem main_launch_xdgCalls (w : World) (m : Machine) (hf : w.fork ≠ 0) :
    callsOf Event.isXdgCall (main_launch w m).trace = callsOf Event.isXdgCall m.trace := by
  unfold main_launch
  simp only [Machine.exec_st, Machine.call_st]
  split_ifs <;> first
    | contradiction
    | simp [fail_vnc_callsOf Event.isXdgCall (fun _ => rfl) (fun _ => rfl) (fun _ => rfl),
        Event.isXdgCall]

theorem main_wayland_xdgCalls (w : World) (m : Machine) (hf : w.fork ≠ 0) :
    callsOf Event.isXdgCall (main_wayland w m).trace = callsOf Event.isXdgCall m.trace := by
  unfold main_wayland
  simp only [Machine.exec_st, Machine.call_st]
  split_ifs <;>
    simp [fail_vnc_callsOf Event.isXdgCall (fun _ => rfl) (fun _ => rfl) (fun _ => rfl),
      main_launch_xdgCalls _ _ hf, Event.isXdgCall]

theorem main_vnc_xdgCalls (w : World) (m : Machine) (hf : w.fork ≠ 0) :
    callsOf Event.isXdgCall (main_vnc w m).trace = callsOf Event.isXdgCall m.trace := by
  rcases hg : w.rfbGetScreen w.argv 800 600 8 3 4 with _ | ⟨p, sc⟩
  · simp [main_vnc, hg, fail_display, Event.isXdgCall]
  · rcases ha : w.calloc with _ | a
    · simp [main_vnc, hg, ha, fail_display, State.frameBuffer, Event.isXdgCall]
    · by_cases hp : w.pthread_create = 0 <;>
        simp [main_vnc, hg, ha, hp, fail_display, State.frameBuffer, Event.isXdgCall,
          main_wayland_xdgCalls _ _ hf]

theorem main_compositor_xdgCalls (w : World) (m : Machine) (hf : w.fork ≠ 0) :
    callsOf Event.isXdgCall (main_compositor w m).trace = callsOf Event.isXdgCall m.trace := by
  unfold main_compositor
  simp only [Machine.exec_st, Machine.call_st]
  split_ifs <;>
    simp [fail_display, main_vnc_xdgCalls _ _ hf, Event.isXdgCall]

theorem isMkdir_not_late (e : Event) (h : e.isLate = true) : e.isMkdir = false := by
  cases e <;> simp_all [Event.isLate, Event.isMkdir]

theorem main_vnc_mkdir (w : World) (m : Machine) :
    callsOf Event.isMkdir (main_vnc w m).trace = callsOf Event.isMkdir m.trace := by
  rcases hg : w.rfbGetScreen w.argv 800 600 8 3 4 with _ | ⟨p, sc⟩
  · simp [main_vnc, hg, fail_display, Event.isMkdir]
  · rcases ha : w.calloc with _ | a
    · simp [main_vnc, hg, ha, fail_display, State.frameBuffer, Event.isMkdir]
    · by_cases hp : w.pthread_create = 0 <;>
        simp [main_vnc, hg, ha, hp, fail_display, State.frameBuffer, Event.isMkdir,
          main_wayland_not_late _ isMkdir_not_late]

theorem main_compositor_mkdir (w : World) (m : Machine) :
    callsOf Event.isMkdir (main_compositor w m).trace = callsOf Event.isMkdir m.trace := by
  unfold main_compositor
  simp only [Machine.exec_st, Machine.call_st]
  split_ifs <;>
    simp [fail_display, main_vnc_mkdir, Event.isMkdir]

theorem afterFork_append_of_no_fork (t u : List (Event × State))
    (h : callsOf Event.isFork t = []) : afterFork (t ++ u) = afterFork u := by
  induction t with
  | nil => rfl
  | cons x t ih =>
    have h0 := (callsOf_eq_nil _ _).1 h
    have hx : x.1.isFork = false := h0 x (List.mem_cons_self _ _)
    have ht : callsOf Event.isFork t = [] :=
      (callsOf_eq_nil _ _).2 (fun es hes => h0 es (List.mem_cons_of_mem _ hes))
    have ih' := ih ht
    simp only [afterFork, List.map_append] at ih'
    simp only [afterFork, List.cons_append, List.map_cons, List.map_append,
      List.dropWhile_cons, hx, Bool.not_false, if_true, ih']

theorem afterFork_cons_fork (s : State) (t : List (Event × State)) :
    afterFork ((Event.fork, s) :: t) = Event.fork :: t.map Prod.fst := by
  simp [afterFork, List.dropWhile_cons, Event.isFork]

theorem main_launch_child (w : World) (v : String) (m : Machine) (hf : w.fork = 0)
    (h1 : callsOf Event.isFork m.trace = [])
    (h2 : m.st.socket = w.wl_display_add_socket_auto)
    (h3 : m.st.xdg_runtime_dir = some v) : ChildExecs w v (main_launch w m) := by
  unfold main_launch
  simp only [Machine.exec_st, Machine.call_st, hf, if_true]
  split_ifs with he <;>
  · simp only [ChildExecs, Machine.exec_st, Machine.call_st, Machine.exec_trace,
      Machine.call_trace, Machine.finish_trace, Machine.finish_outcome,
      Machine.finish_final, List.append_assoc, List.singleton_append, List.cons_append,
      List.nil_append]
    rw [afterFork_append_of_no_fork _ _ h1, afterFork_cons_fork]
    simp [he, h2, h3]

theorem main_wayland_child (w : World) (v : String) (m : Machine) (hf : w.fork = 0)
    (h1 : callsOf Event.isFork m.trace = [])
    (h3 : m.st.xdg_runtime_dir = some v)
    (hs : w.wl_display_add_socket_auto ≠ none) (hb : w.wlr_backend_start = true)
    (ho : w.wlr_headless_add_output ≠ NULL) : ChildExecs w v (main_wayland w m) := by
  unfold main_wayland
  simp only [Machine.exec_st, Machine.call_st]
  split_ifs <;> first
    | contradiction
    | (simp_all; done)
    | (apply main_launch_child _ _ _ hf
       · simp [h1, Event.isFork]
       · rfl
       · exact h3)

theorem main_vnc_child (w : World) (v : String) (m : Machine) (hf : w.fork = 0)
    (h1 : callsOf Event.isFork m.trace = [])
    (h3 : m.st.xdg_runtime_dir = some v)
    (hg : w.rfbGetScreen w.argv 800 600 8 3 4 ≠ none) (ha : w.calloc ≠ NULL)
    (hp : w.pthread_create = 0)
    (hs : w.wl_display_add_socket_auto ≠ none) (hb : w.wlr_backend_start = true)
    (ho : w.wlr_headless_add_output ≠ NULL) : ChildExecs w v (main_vnc w m) := by
  rcases hg' : w.rfbGetScreen w.argv 800 600 8 3 4 with _ | ⟨p, sc⟩
  · exact absurd hg' hg
  · rcases ha' : w.calloc with _ | a
    · exact absurd ha' ha
    · simp only [main_vnc, hg', ha', hp, Machine.exec_st, Machine.call_st, State.frameBuffer,
        Option.map_some', reduceCtorEq, if_false, ne_eq, not_true_eq_false]
      apply main_wayland_child _ _ _ hf _ _ hs hb ho
      · simp [h1, Event.isFork]
      · simpa using h3

theorem main_compositor_child (w : World) (v : String) (m : Machine) (hf : w.fork = 0)
    (h1 : callsOf Event.isFork m.trace = [])
    (h3 : m.st.xdg_runtime_dir = some v) (hw : ReachesShm w) :
    ChildExecs w v (main_compositor w m) := by
  obtain ⟨⟨⟨hd, hbk, hre, hco, hxd, hol, hg, ha⟩, hp⟩, hs, hb, ho⟩ := hw
  unfold main_compositor
  simp only [Machine.exec_st, Machine.call_st]
  split_ifs <;> first
    | contradiction
    | (apply main_vnc_child _ _ _ hf _ _ hg ha hp hs hb ho
       · simp [h1, Event.isFork]
       · exact h3)

theorem main_child (w : World) (hw : ReachesShm w) (hf : w.fork = 0) :
    ChildExecs w (effectiveXdg w) (main w) := by
  have hd : w.wl_display_create ≠ NULL := hw.1.1.1
  rcases hx : getenv w.environ "XDG_RUNTIME_DIR" with _ | v
  · have hi : getenv (initial w).environ "XDG_RUNTIME_DIR" = none := hx
    unfold main
    simp only [Machine.exec_st, Machine.call_st, hi, if_true, effectiveXdg, hx,
      Option.getD_none]
    split_ifs <;> first
      | contradiction
      | (apply main_compositor_child _ _ _ hf _ _ hw
         · simp [Event.isFork]
         · rfl)
  · have hi : getenv (initial w).environ "XDG_RUNTIME_DIR" = some v := hx
    unfold main
    simp only [Machine.exec_st, Machine.call_st, hi, reduceCtorEq, if_false, effectiveXdg,
      hx, Option.getD_some]
    split_ifs <;> first
      | contradiction
      | (apply main_compositor_child _ _ _ hf _ _ hw
         · simp [Event.isFork]
         · simp [hi])

theorem main_env_set (w : World) (v : String)
    (hx : getenv w.environ "XDG_RUNTIME_DIR" = some v) :
    (AllEntries (XdgIs v) (main w).trace ∧ callsOf Event.isMkdir (main w).trace = [] ∧
      (w.fork ≠ 0 → callsOf Event.isXdgCall (main w).trace = [])) ∧
    LaunchesWith w v (main w) := by
  have hi : getenv (initial w).environ "XDG_RUNTIME_DIR" = some v := hx
  unfold main
  simp only [Machine.exec_st, Machine.call_st, hi, reduceCtorEq, if_false]
  split_ifs
  · simp [XdgIs, hi, Event.isXdgCall, Event.isMkdir, LaunchesWith, LaunchEnv, Event.isExecl]
  · refine ⟨⟨?_, ?_, fun hf => ?_⟩, ?_⟩
    · apply main_compositor_env v _ (allXdg_append v)
      · simp [XdgIs, hi]
      · simp [EnvInv, hi]
    · rw [main_compositor_mkdir]
      simp [Event.isMkdir]
    · rw [main_compositor_xdgCalls _ _ hf]
      simp [Event.isXdgCall]
    · apply main_compositor_launch
      · simp [LaunchEnv, Event.isExecl]
      · simp [EnvInv, hi]

theorem main_env_unset (w : World)
    (hx : getenv w.environ "XDG_RUNTIME_DIR" = none) :
    (XdgSince XDG_DEFAULT (main w).trace ∧
      callsOf Event.isMkdir (main w).trace = [.mkdir (some XDG_DEFAULT) 0o700] ∧
      (w.fork ≠ 0 → callsOf Event.isXdgCall (main w).trace =
        [.setenv "XDG_RUNTIME_DIR" (some XDG_DEFAULT) 1,
         .mkdir (some XDG_DEFAULT) 0o700])) ∧
    LaunchesWith w XDG_DEFAULT (main w) := by
  have hi : getenv (initial w).environ "XDG_RUNTIME_DIR" = none := hx
  unfold main
  simp only [Machine.exec_st, Machine.call_st, hi, if_true]
  split_ifs
  · simp [XdgSince, XdgIs, hi, Event.isXdgCall, Event.isMkdir, LaunchesWith, LaunchEnv,
      Event.isExecl, XDG_DEFAULT, getenv_setenv_same]
  · refine ⟨⟨?_, ?_, fun hf => ?_⟩, ?_⟩
    · apply main_compositor_env XDG_DEFAULT _ (xdgSince_append XDG_DEFAULT)
      · simp [XdgSince, XdgIs, Event.isXdgCall, XDG_DEFAULT, getenv_setenv_same]
      · simp [EnvInv, XDG_DEFAULT, getenv_setenv_same]
    · rw [main_compositor_mkdir]
      simp [Event.isMkdir, XDG_DEFAULT]
    · rw [main_compositor_xdgCalls _ _ hf]
      simp [Event.isXdgCall, XDG_DEFAULT]
    · apply main_compositor_launch
      · simp [LaunchEnv, Event.isExecl]
      · simp [EnvInv, XDG_DEFAULT, getenv_setenv_same]

/-- C10: environment handling of `main`.  If `XDG_RUNTIME_DIR` is set on entry, its
value stays the same after every statement, `mkdir` is never called, and the parent
never calls `setenv("XDG_RUNTIME_DIR", ...)`.  If it is unset, `main` calls `mkdir` of
`/data/data/com.termux/files/usr/tmp/wayland` with mode 0700, exactly once, the calls of
the parent that touch the runtime directory are `setenv("XDG_RUNTIME_DIR", that
directory, 1)` followed by that `mkdir`, and from the `setenv` on the variable has that
value.  In either case, at `fork` and at `execl` the environment holds `XDG_RUNTIME_DIR`
equal to the value in effect in the parent and `WAYLAND_DISPLAY` equal to the socket
name returned by `wl_display_add_socket_auto`, and a successful `execl` starts the
terminal with that environment.  And when every step before `fork` succeeds, the forked
child does call `setenv("WAYLAND_DISPLAY", socket, 1)`, `setenv("XDG_RUNTIME_DIR", value
in effect, 1)` and `execl` of the terminal, in this order and nothing else, ending in
the new process image, or in `perror` and `_exit(1)` if `execl` fails. -/
theorem main_environment (w : World) :
    (∀ v, getenv w.environ "XDG_RUNTIME_DIR" = some v →
      AllEntries (XdgIs v) (main w).trace ∧ callsOf Event.isMkdir (main w).trace = [] ∧
      (w.fork ≠ 0 → callsOf Event.isXdgCall (main w).trace = [])) ∧
    (getenv w.environ "XDG_RUNTIME_DIR" = none →
      XdgSince XDG_DEFAULT (main w).trace ∧
      callsOf Event.isMkdir (main w).trace = [.mkdir (some XDG_DEFAULT) 0o700] ∧
      (w.fork ≠ 0 → callsOf Event.isXdgCall (main w).trace =
        [.setenv "XDG_RUNTIME_DIR" (some XDG_DEFAULT) 1,
         .mkdir (some XDG_DEFAULT) 0o700])) ∧
    LaunchesWith w (effectiveXdg w) (main w) ∧
    (ReachesShm w → w.fork = 0 → ChildExecs w (effectiveXdg w) (main w)) := by
  refine ⟨fun v hv => (main_env_set w v hv).1, fun hn => (main_env_unset w hn).1, ?_,
    main_child w⟩
  rcases hx : getenv w.environ "XDG_RUNTIME_DIR" with _ | v
  · have h := (main_env_unset w hx).2
    simpa [effectiveXdg, hx] using h
  · have h := (main_env_set w v hx).2
    simpa [effectiveXdg, hx] using h

/-- C10 at concrete worlds: the forked child with `XDG_RUNTIME_DIR=/run/user/0` calls
both `setenv`s and `execl` and becomes the terminal with that value and
`WAYLAND_DISPLAY=wayland-0`; the forked child with no `XDG_RUNTIME_DIR` whose `execl`
fails has set the fallback and exits with status 1; the parent with the variable set
touches nothing; the parent with no `XDG_RUNTIME_DIR` sets the fallback and creates the
directory. -/
theorem main_environment_witness :
    (getenv worldChild.environ "XDG_RUNTIME_DIR" = some "/run/user/0" ∧
      AllEntries (XdgIs "/run/user/0") (main worldChild).trace ∧
      LaunchesWith worldChild "/run/user/0" (main worldChild)) ∧
    (ReachesShm worldChild ∧ worldChild.fork = 0 ∧
      ChildExecs worldChild "/run/user/0" (main worldChild)) ∧
    (ReachesShm worldChildNoExec ∧ worldChildNoExec.fork = 0 ∧
      ChildExecs worldChildNoExec XDG_DEFAULT (main worldChildNoExec)) ∧
    (getenv worldNoOutput.environ "XDG_RUNTIME_DIR" = some "/run/user/0" ∧
      worldNoOutput.fork ≠ 0 ∧ callsOf Event.isXdgCall (main worldNoOutput).trace = []) ∧
    (getenv worldOk.environ "XDG_RUNTIME_DIR" = none ∧ worldOk.fork ≠ 0 ∧
      callsOf Event.isXdgCall (main worldOk).trace =
        [.setenv "XDG_RUNTIME_DIR" (some XDG_DEFAULT) 1,
         .mkdir (some XDG_DEFAULT) 0o700]) :=
  ⟨⟨by decide, ((main_environment worldChild).1 "/run/user/0" (by decide)).1,
      (main_environment worldChild).2.2.1⟩,
    ⟨by unfold ReachesShm ReachesSocket ReachesInit; decide, by decide,
      (main_environment worldChild).2.2.2
        (by unfold ReachesShm ReachesSocket ReachesInit; decide) (by decide)⟩,
    ⟨by unfold ReachesShm ReachesSocket ReachesInit; decide, by decide,
      (main_environment worldChildNoExec).2.2.2
        (by unfold ReachesShm ReachesSocket ReachesInit; decide) (by decide)⟩,
    ⟨by decide, by decide,
      ((main_environment worldNoOutput).1 "/run/user/0" (by decide)).2.2 (by decide)⟩,
    ⟨by decide, by decide, ((main_environment worldOk).2.1 (by decide)).2.2 (by decide)⟩⟩

end Termuxwc
